import Mathlib

set_option maxRecDepth 8000

/-!
Verification development for the onion-routed relay core of schedule-4-real.

The relay core keeps its runtime state in JS Maps with string or integer
keys.  We embed each Map as an insertion-ordered association list, and each
state-mutating function as a pure function from state to state.  Times are
integers (milliseconds), buffers are lists of byte values.
-/

section MapModel

variable {κ : Type} {β : Type} [DecidableEq κ]

/-- Lookup in an insertion-ordered association list; models JS Map.get. -/
def mapGet (k : κ) : List (κ × β) → Option β
  | [] => none
  | (k2, v) :: rest => if k2 = k then some v else mapGet k rest

/-- Insert or overwrite in place; models JS Map.set (insertion order kept). -/
def mapSet (k : κ) (v : β) : List (κ × β) → List (κ × β)
  | [] => [(k, v)]
  | (k2, v2) :: rest => if k2 = k then (k, v) :: rest else (k2, v2) :: mapSet k v rest

/-- Remove a key; models JS Map.delete. -/
def mapDelete (k : κ) (m : List (κ × β)) : List (κ × β) :=
  m.filter (fun p => decide (p.1 ≠ k))

end MapModel

section ByteModel

/-- Buffer.readUInt16BE: big-endian 16-bit read at an offset. -/
def readUInt16BE (data : List Nat) (off : Nat) : Nat :=
  data.getD off 0 * 256 + data.getD (off + 1) 0

/-- Buffer.readUInt32BE: big-endian 32-bit read at an offset. -/
def readUInt32BE (data : List Nat) (off : Nat) : Nat :=
  data.getD off 0 * 16777216 + data.getD (off + 1) 0 * 65536 +
    data.getD (off + 2) 0 * 256 + data.getD (off + 3) 0

/-- Big-endian 2-byte encoding of a value below 2^16 (writeUInt16BE). -/
def be2 (n : Nat) : List Nat := [n / 256, n % 256]

/-- Big-endian 4-byte encoding of a value below 2^32 (writeUInt32BE). -/
def be4 (n : Nat) : List Nat :=
  [n / 16777216, n / 65536 % 256, n / 256 % 256, n % 256]

/-- Lower-case hex digit for a value below 16. -/
def hexDigit (n : Nat) : Char :=
  if n < 10 then Char.ofNat (48 + n) else Char.ofNat (87 + n)

/-- Two lower-case hex characters for one byte. -/
def byteToHex (b : Nat) : String :=
  String.mk [hexDigit (b / 16 % 16), hexDigit (b % 16)]

/-- Buffer.toString with hex encoding: the key encoding used by the
tracker and rendezvous Maps. -/
def bytesToHex (bs : List Nat) : String :=
  String.join (bs.map byteToHex)

end ByteModel

namespace RateLimit

/-- One per-origin bucket of rate-limit.cjs: recent request timestamps plus
the epoch until which the origin is blocked (0 = not blocked). -/
structure Bucket where
  timestamps : List Int
  blocked : Int
deriving DecidableEq, Repr

/-- MAX_TRACKED_IPS from rate-limit.cjs line 16. -/
def MAX_TRACKED_IPS : Nat := 50000

/-- The limiter closure state of createRateLimiter: configuration plus the
origin-keyed bucket Map. -/
structure RateLimiter where
  maxRequests : Nat
  windowMs : Int
  buckets : List (String × Bucket)
deriving DecidableEq, Repr

/-- The bucket-mutating part of check(ip) (rate-limit.cjs lines 56-72):
block test, window slide, then reject-and-block or append-and-allow. -/
def checkBucket (b : Bucket) (maxRequests : Nat) (windowMs now : Int) :
    Bool × Bucket :=
  if b.blocked ≠ 0 ∧ b.blocked > now then
    (false, b)
  else
    let ts := b.timestamps.filter (fun t => decide (t > now - windowMs))
    if ts.length ≥ maxRequests then
      (false, { timestamps := ts, blocked := now + windowMs })
    else
      (true, { timestamps := ts ++ [now], blocked := 0 })

/-- check(ip) from rate-limit.cjs lines 42-73: bucket lookup or creation
(rejecting a new origin when MAX_TRACKED_IPS is reached), then the sliding
window decision. -/
def check (rl : RateLimiter) (ip : String) (now : Int) : Bool × RateLimiter :=
  match mapGet ip rl.buckets with
  | none =>
    if rl.buckets.length ≥ MAX_TRACKED_IPS then
      (false, rl)
    else
      let r := checkBucket { timestamps := [], blocked := 0 } rl.maxRequests rl.windowMs now
      (r.1, { rl with buckets := mapSet ip r.2 rl.buckets })
  | some b =>
    let r := checkBucket b rl.maxRequests rl.windowMs now
    (r.1, { rl with buckets := mapSet ip r.2 rl.buckets })

/-- Run check for one origin at a sequence of times, collecting results. -/
def checkRun (rl : RateLimiter) (ip : String) : List Int → List Bool × RateLimiter
  | [] => ([], rl)
  | t :: ts =>
    let r := check rl ip t
    let rest := checkRun r.2 ip ts
    (r.1 :: rest.1, rest.2)

end RateLimit

namespace Circuits

/-- Circuit session state, circuits.cjs lines 17-23.  The inbound and
outbound transport handles are modeled as integer connection identifiers
(the model never inspects them). -/
structure Circuit where
  circuitId : Nat
  rx : List Nat
  tx : List Nat
  inboundWs : Nat
  outboundWs : Option Nat
  lastActivity : Int
  nextHop : Option String
  rendezvousPairId : Option Nat
deriving DecidableEq, Repr

/-- registerCircuit, circuits.cjs lines 15-25: reject at capacity, else
store a fresh entry. -/
def registerCircuit (maxCircuits : Nat) (circuitId : Nat) (rx tx : List Nat)
    (inboundWs : Nat) (now : Int) (circuits : List (Nat × Circuit)) :
    Bool × List (Nat × Circuit) :=
  if circuits.length ≥ maxCircuits then (false, circuits)
  else
    (true, mapSet circuitId
      { circuitId := circuitId, rx := rx, tx := tx, inboundWs := inboundWs,
        outboundWs := none, lastActivity := now, nextHop := none,
        rendezvousPairId := none } circuits)

/-- getCircuit side effect (circuits.cjs lines 27-31): bump lastActivity
when the circuit exists. -/
def touchCircuit (circuitId : Nat) (now : Int) (circuits : List (Nat × Circuit)) :
    List (Nat × Circuit) :=
  match mapGet circuitId circuits with
  | none => circuits
  | some c => mapSet circuitId { c with lastActivity := now } circuits

/-- Destruction record: destroyCircuit zero-fills the rx and tx key buffers
in place (circuits.cjs lines 39-40) before deleting the entry; the record
keeps the zero-filled buffers as the observable trace of that effect. -/
structure DestroyEvent where
  circuitId : Nat
  rx : List Nat
  tx : List Nat
deriving DecidableEq, Repr

/-- The in-place key zeroing of destroyCircuit (circuit.rx.fill(0)). -/
def zeroKeys (c : Circuit) : Circuit :=
  { c with rx := List.replicate c.rx.length 0, tx := List.replicate c.tx.length 0 }

/-- destroyCircuit, circuits.cjs lines 33-49, with an explicit recursion
bound: zero the keys, and when the `if (circuit.rendezvousPairId)` guard
holds — the field is a JavaScript number or null, so the guard is truthy
exactly when a partner id exists AND is nonzero — clear the partner pairId
field first and cascade into the partner, then delete the entry.  A stored
pair id of 0 is falsy and skips the cascade.  Closing the outbound
transport is an external effect outside the state.  destroyCircuit below
fixes the bound at 2; a larger bound never changes the result, so the
recursion always terminates after at most one cascade. -/
def destroyAux : Nat → List (Nat × Circuit) → Nat → List (Nat × Circuit) × List DestroyEvent
  | 0, circuits, _ => (circuits, [])
  | fuel + 1, circuits, circuitId =>
    match mapGet circuitId circuits with
    | none => (circuits, [])
    | some c =>
      let ev : DestroyEvent :=
        { circuitId := circuitId, rx := List.replicate c.rx.length 0,
          tx := List.replicate c.tx.length 0 }
      let circuits1 := mapSet circuitId (zeroKeys c) circuits
      match c.rendezvousPairId with
      | some p =>
        if p = 0 then (mapDelete circuitId circuits1, [ev])
        else
          match mapGet p circuits1 with
          | some pair =>
            let circuits2 := mapSet p { pair with rendezvousPairId := none } circuits1
            let r := destroyAux fuel circuits2 pair.circuitId
            (mapDelete circuitId r.1, ev :: r.2)
          | none => (mapDelete circuitId circuits1, [ev])
      | none => (mapDelete circuitId circuits1, [ev])

/-- destroyCircuit, circuits.cjs lines 33-49. -/
def destroyCircuit (circuits : List (Nat × Circuit)) (circuitId : Nat) :
    List (Nat × Circuit) × List DestroyEvent :=
  destroyAux 2 circuits circuitId

/-- Registry well-formedness: each entry stores its own Map key in its
circuitId field.  registerCircuit always stores entries this way. -/
def CircuitsWF (circuits : List (Nat × Circuit)) : Prop :=
  ∀ k c, mapGet k circuits = some c → c.circuitId = k

end Circuits

namespace Rendezvous

/-- A pending rendezvous entry: the waiting circuit and the time the
cookie was established (rendezvous.cjs line 406). -/
structure Pending where
  circuitId : Nat
  timestamp : Int
deriving DecidableEq, Repr

end Rendezvous

/-- Shared mutable state of the relay process: the circuit registry of
circuits.cjs and the pending-rendezvous table of rendezvous.cjs. -/
structure RelayState where
  circuits : List (Nat × Circuits.Circuit)
  pendingRendezvous : List (String × Rendezvous.Pending)
deriving DecidableEq, Repr

namespace Rendezvous

/-- MAX_PENDING, rendezvous.cjs line 398. -/
def MAX_PENDING : Nat := 10000

/-- COOKIE_TTL_MS, rendezvous.cjs line 399. -/
def COOKIE_TTL_MS : Int := 30000

/-- establishRendezvous, rendezvous.cjs lines 401-408.  The JS error
strings are dropped; only the success flag is kept. -/
def establishRendezvous (circuitId : Nat) (cookie : List Nat) (now : Int)
    (st : RelayState) : Bool × RelayState :=
  if cookie.length ≠ 20 then (false, st)
  else
    let cookieHex := bytesToHex cookie
    if (mapGet cookieHex st.pendingRendezvous).isSome then (false, st)
    else if st.pendingRendezvous.length ≥ MAX_PENDING then (false, st)
    else
      let pend := mapSet cookieHex { circuitId := circuitId, timestamp := now }
        st.pendingRendezvous
      (true, { st with pendingRendezvous := pend })

/-- Result of joinRendezvous: success flag plus the waiting circuit id
returned to the caller on success. -/
structure JoinResult where
  success : Bool
  visitorCircuitId : Option Nat
deriving DecidableEq, Repr

/-- joinRendezvous, rendezvous.cjs lines 410-421: consume the cookie, look
up both circuits (getCircuit bumps lastActivity on each), and on success
link them bidirectionally through the rendezvousPairId fields. -/
def joinRendezvous (hostCircuitId : Nat) (cookie : List Nat) (now : Int)
    (st : RelayState) : JoinResult × RelayState :=
  let cookieHex := bytesToHex cookie
  match mapGet cookieHex st.pendingRendezvous with
  | none => ({ success := false, visitorCircuitId := none }, st)
  | some pending =>
    let pend1 := mapDelete cookieHex st.pendingRendezvous
    let circuits1 := Circuits.touchCircuit pending.circuitId now st.circuits
    let circuits2 := Circuits.touchCircuit hostCircuitId now circuits1
    match mapGet pending.circuitId circuits2, mapGet hostCircuitId circuits2 with
    | some visitor, some host =>
      let circuits3 := mapSet pending.circuitId
        { visitor with rendezvousPairId := some hostCircuitId } circuits2
      let circuits4 := mapSet hostCircuitId
        { host with rendezvousPairId := some pending.circuitId } circuits3
      ({ success := true, visitorCircuitId := some pending.circuitId },
       { circuits := circuits4, pendingRendezvous := pend1 })
    | _, _ =>
      ({ success := false, visitorCircuitId := none },
       { circuits := circuits2, pendingRendezvous := pend1 })

end Rendezvous

namespace Tracker

/-- Tracker message type bytes (tracker.cjs lines 10-15). -/
def MSG_REGISTER : Nat := 0x40

/-- Tracker QUERY message type byte. -/
def MSG_QUERY : Nat := 0x41

/-- Tracker RESPONSE message type byte. -/
def MSG_RESPONSE : Nat := 0x42

/-- Tracker HEARTBEAT message type byte. -/
def MSG_HEARTBEAT : Nat := 0x43

/-- A local room record (tracker.cjs line 22). -/
structure Room where
  metadata : List Nat
  entryRelay : String
  isPrivate : Bool
  createdAt : Int
  expiresAt : Int
deriving DecidableEq, Repr

/-- A federated room record (tracker.cjs line 26); metadata is stored as
the decoded bytes. -/
structure FedRoom where
  metadata : List Nat
  entryRelay : String
  sourceRelay : String
  expiresAt : Int
deriving DecidableEq, Repr

/-- The tracker Maps (tracker.cjs lines 23-28).  A circuitSessions entry
keeps the registering circuit id; the ws transport handle is external. -/
structure TrackerState where
  rooms : List (String × Room)
  circuitSessions : List (String × Nat)
  federatedRooms : List (String × FedRoom)
deriving DecidableEq, Repr

/-- handleRegister, tracker.cjs lines 99-136: parse flags, room id, entry
relay and metadata; reject a new room at capacity; otherwise insert or
update the room keeping the original createdAt, record the registering
circuit, and answer success.  utf8 stands for the external UTF-8 decode
of the relay bytes; the fire-and-forget DB persist has no Map effect. -/
def handleRegister (utf8 : List Nat → String) (roomTtlMs : Nat) (maxRooms : Nat)
    (data : List Nat) (circuitId : Nat) (now : Int) (st : TrackerState) :
    Option (List Nat) × TrackerState :=
  if data.length < 36 then (none, st)
  else
    let flags := data.getD 1 0
    let isPrivate : Bool := decide (flags % 2 = 1)
    let roomId := bytesToHex ((data.drop 2).take 32)
    let relayLen := readUInt16BE data 34
    if data.length < 36 + relayLen then (none, st)
    else
      let entryRelay := utf8 ((data.drop 36).take relayLen)
      let metadata := data.drop (36 + relayLen)
      if (mapGet roomId st.rooms).isNone ∧ st.rooms.length ≥ maxRooms then
        (some [MSG_RESPONSE, 0x00], st)
      else
        let createdAt :=
          match mapGet roomId st.rooms with
          | some r => r.createdAt
          | none => now
        let room : Room :=
          { metadata := metadata, entryRelay := entryRelay, isPrivate := isPrivate,
            createdAt := createdAt, expiresAt := now + roomTtlMs }
        (some [MSG_RESPONSE, 0x01],
         { st with rooms := mapSet roomId room st.rooms,
                   circuitSessions := mapSet roomId circuitId st.circuitSessions })

/-- handleHeartbeat, tracker.cjs lines 194-213: renew the TTL of an
existing room, answer failure for an unknown room id (no room created). -/
def handleHeartbeat (roomTtlMs : Nat) (data : List Nat) (now : Int) (st : TrackerState) :
    Option (List Nat) × TrackerState :=
  if data.length < 33 then (none, st)
  else
    let roomId := bytesToHex ((data.drop 1).take 32)
    match mapGet roomId st.rooms with
    | none => (some [MSG_RESPONSE, 0x00], st)
    | some room =>
      (some [MSG_RESPONSE, 0x01],
       { st with rooms := mapSet roomId { room with expiresAt := now + roomTtlMs } st.rooms })

/-- One entry of the public room listing served by handleQuery. -/
structure QEntry where
  roomId : String
  entryRelay : String
  metadata : List Nat
deriving DecidableEq, Repr

/-- The public room list built by handleQuery (tracker.cjs lines 148-160):
live public local rooms in Map order, then live federated rooms whose id
is not local (local wins on an id collision). -/
def publicRoomsQuery (st : TrackerState) (now : Int) : List QEntry :=
  (st.rooms.filter (fun p => !p.2.isPrivate && decide (now < p.2.expiresAt))).map
    (fun p => { roomId := p.1, entryRelay := p.2.entryRelay, metadata := p.2.metadata })
  ++ (st.federatedRooms.filter
      (fun p => decide (now < p.2.expiresAt) && !(mapGet p.1 st.rooms).isSome)).map
    (fun p => { roomId := p.1, entryRelay := p.2.entryRelay, metadata := p.2.metadata })

/-- The cursor arithmetic of handleQuery (tracker.cjs lines 163-165):
clamp the cursor, slice count entries, return the next cursor. -/
def queryPage (l : List QEntry) (cursor count : Nat) : Nat × List QEntry :=
  let start := min cursor l.length
  let slice := (l.drop start).take count
  (start + slice.length, slice)

/-- handleQuery, tracker.cjs lines 140-190: parse cursor and count (count
above 100 is clamped to 100) and paginate the public room list.  The
response is modeled as the pair of next cursor and entry list; its byte
serialization (fixed header plus length-prefixed entries) encodes exactly
these two components. -/
def handleQuery (data : List Nat) (now : Int) (st : TrackerState) :
    Option (Nat × List QEntry) :=
  if data.length < 7 then none
  else
    let cursor := readUInt32BE data 1
    let count0 := readUInt16BE data 5
    let count := if count0 > 100 then 100 else count0
    some (queryPage (publicRoomsQuery st now) cursor count)

/-- Repeated QUERY invocation: page from a cursor, each time passing the
returned next cursor, stopping at the first page shorter than the
requested count (the termination condition of the pagination round-trip).
fuel bounds the iteration; the C2 theorem shows that list length plus one
always suffices. -/
def queryAll (l : List QEntry) (count : Nat) : Nat → Nat → List QEntry
  | 0, _ => []
  | fuel + 1, cursor =>
    let r := queryPage l cursor count
    if r.2.length < count then r.2
    else r.2 ++ queryAll l count fuel r.1

/-- An entry of a peer tracker room list, the input shape of
setFederatedRooms; metadata is the base64 string as received. -/
structure PeerRoom where
  roomId : String
  metadata : String
  entryRelay : String
deriving DecidableEq, Repr

/-- The loop body of setFederatedRooms (tracker.cjs lines 287-305): skip an
entry with a falsy roomId, metadata or entryRelay, skip rooms already held
locally, and insert the rest. -/
def fedStep (b64 : String → List Nat) (roomTtlMs : Nat) (sourceRelay : String)
    (st : TrackerState) (now : Int) (acc : List (String × FedRoom)) (pr : PeerRoom) :
    List (String × FedRoom) :=
  if pr.roomId = "" ∨ pr.metadata = "" ∨ pr.entryRelay = "" then acc
  else if (mapGet pr.roomId st.rooms).isSome then acc
  else mapSet pr.roomId
    { metadata := b64 pr.metadata, entryRelay := pr.entryRelay,
      sourceRelay := sourceRelay, expiresAt := now + (3 * roomTtlMs / 2 : Nat) } acc

/-- setFederatedRooms, tracker.cjs lines 274-306: drop all federated
entries from this source relay, then insert each entry of the list that
has nonempty roomId, metadata and entryRelay and is not already a local
room, with TTL 1.5 times the local room TTL (exact for the even default
120000 ms; JS multiplies by the float 1.5).  b64 stands for the external
base64 decode; Buffer.from never throws on a string input and persistRoom
is fire-and-forget, so the try/catch changes nothing observable. -/
def setFederatedRooms (b64 : String → List Nat) (roomTtlMs : Nat)
    (sourceRelay : String) (peerRooms : List PeerRoom) (now : Int)
    (st : TrackerState) : TrackerState :=
  let fed0 := st.federatedRooms.filter (fun p => decide (p.2.sourceRelay ≠ sourceRelay))
  { st with federatedRooms :=
      peerRooms.foldl (fedStep b64 roomTtlMs sourceRelay st now) fed0 }

/-- A peer room entry is inserted by setFederatedRooms iff its three
fields are nonempty and its room id is not a local room. -/
def validPeerRoom (st : TrackerState) (pr : PeerRoom) : Bool :=
  !(decide (pr.roomId = "" ∨ pr.metadata = "" ∨ pr.entryRelay = ""))
    && !(mapGet pr.roomId st.rooms).isSome

/-- The last entry of a peer room list that is valid and has the given
room id: the entry whose insertion survives in the federated Map. -/
def lastMatch (st : TrackerState) (r : String) : List PeerRoom → Option PeerRoom
  | [] => none
  | pr :: rest =>
    match lastMatch st r rest with
    | some q => some q
    | none => if validPeerRoom st pr ∧ pr.roomId = r then some pr else none

end Tracker

namespace Gossip

/-- A peer announcement as received on POST /peers/announce
(gossip.cjs lines 243-245). -/
structure Announcement where
  url : String
  pk : String
  signPk : String
  ts : Int
  sig : String
deriving DecidableEq, Repr

/-- ANNOUNCE_MAX_AGE_MS, gossip.cjs line 36. -/
def ANNOUNCE_MAX_AGE_MS : Int := 600000

/-- ANNOUNCE_MAX_FUTURE_MS, gossip.cjs line 37. -/
def ANNOUNCE_MAX_FUTURE_MS : Int := 60000

/-- Case-insensitive hex digit, as matched by the key regex. -/
def isHexChar (c : Char) : Bool :=
  (decide ('0' <= c) && decide (c <= '9')) ||
  (decide ('a' <= c) && decide (c <= 'f')) ||
  (decide ('A' <= c) && decide (c <= 'F'))

/-- The key format regex [0-9a-f]{64} with the i flag
(gossip.cjs lines 259-260). -/
def isHex64 (s : String) : Bool :=
  decide (s.length = 64) && s.data.all isHexChar

/-- The 172.16.0.0/12 test of isInternalUrl:
the regex matching 172. then 16-31 then a dot (gossip.cjs line 523). -/
def is172Private (host : String) : Bool :=
  match host.data with
  | '1' :: '7' :: '2' :: '.' :: a :: b :: '.' :: _ =>
    (a == '1' && decide ('6' <= b) && decide (b <= '9')) ||
    (a == '2' && b.isDigit) ||
    (a == '3' && (b == '0' || b == '1'))
  | _ => false

/-- The hostname classification of isInternalUrl (gossip.cjs lines
515-531).  The WHATWG URL parse that extracts the hostname is an external
operation: the argument is the parsed hostname, or none when the URL does
not parse (the catch branch treats an unparsable URL as internal). -/
def isInternalUrl (host : Option String) : Bool :=
  match host with
  | none => true
  | some h =>
    h == "localhost" || h == "127.0.0.1" || h == "::1" || h == "0.0.0.0" ||
    h.startsWith "10." || is172Private h || h.startsWith "192.168." ||
    h.startsWith "169.254." || h.startsWith "fc00:" || h.startsWith "fd"

/-- verifyAnnouncement, gossip.cjs lines 246-279.  verifyF is the external
Ed25519 detached verification applied to the hex signature, the message
url|pk|ts and the hex public key; host is the parsed hostname of the
announcement URL.  JS truthiness of the required fields maps to
nonemptiness (and ts nonzero). -/
def verifyAnnouncement (verifyF : String → String → String → Bool)
    (host : Option String) (a : Announcement) (now : Int) : Bool :=
  if a.url = "" ∨ a.pk = "" ∨ a.signPk = "" ∨ a.ts = 0 ∨ a.sig = "" then false
  else if ¬ (a.url.startsWith "wss://" ∨ a.url.startsWith "ws://") then false
  else if a.url.length > 256 then false
  else if ¬ isHex64 a.pk then false
  else if ¬ isHex64 a.signPk then false
  else if a.ts < now - ANNOUNCE_MAX_AGE_MS then false
  else if a.ts > now + ANNOUNCE_MAX_FUTURE_MS then false
  else if isInternalUrl host then false
  else verifyF a.sig (a.url ++ "|" ++ a.pk ++ "|" ++ toString a.ts) a.signPk

end Gossip

namespace Relay

/-- Relay message type byte RELAY (relay.cjs lines 12-29). -/
def MSG_RELAY : Nat := 0x10

/-- Relay message type byte DATA. -/
def MSG_DATA : Nat := 0x20

/-- Relay message type byte ESTABLISH_RENDEZVOUS. -/
def MSG_ESTABLISH_RENDEZVOUS : Nat := 0x30

/-- Relay message type byte RENDEZVOUS_ESTABLISHED. -/
def MSG_RENDEZVOUS_ESTABLISHED : Nat := 0x31

/-- Relay message type byte RENDEZVOUS_JOIN. -/
def MSG_RENDEZVOUS_JOIN : Nat := 0x33

/-- Relay message type byte CIRCUIT_DESTROY. -/
def MSG_CIRCUIT_DESTROY : Nat := 0xF0

/-- crypto.cjs: XChaCha20-Poly1305 nonce size. -/
def NONCE_BYTES : Nat := 24

/-- crypto.cjs: XChaCha20-Poly1305 authentication tag size. -/
def MAC_BYTES : Nat := 16

/-- crypto.cjs: X25519 public key size. -/
def KX_PK_BYTES : Nat := 32

/-- Observable effects of the packet dispatcher: the cleartext handshake
reply, a message encrypted and sent down a circuit (sendToCircuit; the
AEAD encryption and the transport write are external, the circuit id and
plaintext are recorded), a RELAY forward to a next hop (forwardToHop), or
a tracker sub-protocol hand-off (direct co-hosted call or ws proxy). -/
inductive Output where
  | handshakeReply (ws : Nat) (clientPk : List Nat)
  | sendEnc (circuitId : Nat) (plaintext : List Nat)
  | forward (hop : String) (payload : List Nat)
  | trackerOp (circuitId : Nat) (payload : List Nat)
deriving DecidableEq, Repr

/-- handleHandshake, relay.cjs lines 137-175.  kx is the external
serverSessionKeys computation (already composed with the
previous-keypair retry; none when both throw), returning the rx and tx
session keys from the client public key. -/
def handleHandshake (kx : List Nat → Option (List Nat × List Nat))
    (maxCircuits : Nat) (rawData : List Nat) (circuitId : Nat) (ws : Nat)
    (now : Int) (st : RelayState) : RelayState × List Output :=
  if rawData.length < NONCE_BYTES + 4 + KX_PK_BYTES then (st, [])
  else
    let clientPk := (rawData.drop (NONCE_BYTES + 4)).take KX_PK_BYTES
    match kx clientPk with
    | none => (st, [])
    | some keys =>
      let r := Circuits.registerCircuit maxCircuits circuitId keys.1 keys.2 ws now st.circuits
      if r.1 then
        ({ st with circuits := r.2 }, [Output.handshakeReply ws clientPk])
      else (st, [])

/-- processMessage, relay.cjs lines 177-288, for the message kinds whose
effects live in the modeled state: RELAY forwarding, DATA relaying over a
rendezvous pair (the `if (circuit.rendezvousPairId)` guard is falsy both
for null and for a stored pair id of 0, so a pair id of 0 forwards
nothing), ESTABLISH_RENDEZVOUS, RENDEZVOUS_JOIN, the tracker
hand-off (recorded as an event; the co-hosted tracker state is modeled
separately by the Tracker namespace) and CIRCUIT_DESTROY.  The random
dispatch jitter only delays processing on the single event loop, so the
model dispatches immediately. -/
def processMessage (msgType : Nat) (nextHop : Option String) (payload : List Nat)
    (circ : Circuits.Circuit) (now : Int) (st : RelayState) : RelayState × List Output :=
  if msgType = MSG_RELAY then
    match nextHop with
    | some hop => (st, [Output.forward hop payload])
    | none => (st, [])
  else if msgType = MSG_DATA then
    match circ.rendezvousPairId with
    | some p =>
      if p = 0 then (st, [])
      else
        match mapGet p st.circuits with
        | some toCirc =>
          let st := { st with circuits := mapSet p { toCirc with lastActivity := now } st.circuits }
          (st, [Output.sendEnc p (MSG_DATA :: 0 :: (be2 payload.length ++ payload))])
        | none => (st, [])
    | none => (st, [])
  else if msgType = MSG_ESTABLISH_RENDEZVOUS then
    let r := Rendezvous.establishRendezvous circ.circuitId (payload.take 20) now st
    (r.2, [Output.sendEnc circ.circuitId
      [MSG_RENDEZVOUS_ESTABLISHED, 0, 0, 1, if r.1 then 1 else 0]])
  else if msgType = MSG_RENDEZVOUS_JOIN then
    let hs := payload.drop 20
    let r := Rendezvous.joinRendezvous circ.circuitId (payload.take 20) now st
    match r.1.success, r.1.visitorCircuitId with
    | true, some vid =>
      match mapGet vid r.2.circuits with
      | some v =>
        ({ r.2 with circuits := mapSet vid { v with lastActivity := now } r.2.circuits },
         [Output.sendEnc vid (MSG_RENDEZVOUS_JOIN :: 0 :: (be2 hs.length ++ hs))])
      | none => (r.2, [])
    | _, _ => (r.2, [])
  else if msgType = 0x40 ∨ msgType = 0x41 ∨ msgType = 0x43 ∨ msgType = 0x44 then
    (st, [Output.trackerOp circ.circuitId payload])
  else if msgType = MSG_CIRCUIT_DESTROY then
    ({ st with circuits := (Circuits.destroyCircuit st.circuits circ.circuitId).1 }, [])
  else (st, [])

/-- handlePacket, relay.cjs lines 97-135: drop short packets and chaff
(first byte 0xFF) before touching any state; unknown circuit ids go to the
handshake; established circuits have lastActivity bumped by getCircuit,
the envelope decrypted (dec is the external AEAD decryption over
ciphertext, key and associated data) and the inner frame dispatched. -/
def handlePacket (kx : List Nat → Option (List Nat × List Nat))
    (dec : List Nat → List Nat → List Nat → Option (List Nat))
    (utf8 : List Nat → String) (maxCircuits : Nat)
    (rawData : List Nat) (ws : Nat) (now : Int) (st : RelayState) :
    RelayState × List Output :=
  if rawData.length < NONCE_BYTES + 4 + MAC_BYTES + 1 then (st, [])
  else if rawData.getD 0 0 = 0xFF then (st, [])
  else
    let circuitId := readUInt32BE rawData NONCE_BYTES
    match mapGet circuitId st.circuits with
    | none => handleHandshake kx maxCircuits rawData circuitId ws now st
    | some circuit0 =>
      let circuit := { circuit0 with lastActivity := now }
      let st := { st with circuits := mapSet circuitId circuit st.circuits }
      let encryptedPayload := rawData.take NONCE_BYTES ++ rawData.drop (NONCE_BYTES + 4)
      match dec encryptedPayload circuit.rx (be4 circuitId) with
      | none => (st, [])
      | some plaintext =>
        let msgType := plaintext.getD 0 0
        let nextHopLen := plaintext.getD 1 0
        let nextHop := if nextHopLen > 0 then
            some (utf8 ((plaintext.drop 2).take nextHopLen))
          else none
        let payload := (plaintext.drop (4 + nextHopLen)).take
          (readUInt16BE plaintext (2 + nextHopLen))
        processMessage msgType nextHop payload circuit now st

end Relay

/-!  ## Theorems

Helper lemmas about the embedded Map operations, then one theorem (plus
concrete witness where hypotheses are present) per claim.  -/

section MapLemmas

variable {κ : Type} {β : Type} [DecidableEq κ]

theorem mapGet_mapSet_self (k : κ) (v : β) (m : List (κ × β)) :
    mapGet k (mapSet k v m) = some v := by
  induction m with
  | nil => simp [mapGet, mapSet]
  | cons p rest ih =>
    obtain ⟨k2, v2⟩ := p
    by_cases h : k2 = k <;> simp [mapGet, mapSet, h, ih]

theorem mapGet_mapSet_ne (k k2 : κ) (v : β) (m : List (κ × β)) (h : k2 ≠ k) :
    mapGet k (mapSet k2 v m) = mapGet k m := by
  induction m with
  | nil => simp [mapGet, mapSet, h]
  | cons p rest ih =>
    obtain ⟨k3, v3⟩ := p
    by_cases h3 : k3 = k2
    · subst h3
      simp [mapGet, mapSet, h]
    · simp only [mapSet, if_neg h3]
      by_cases h4 : k3 = k <;> simp [mapGet, h4, ih]

theorem mapGet_mapDelete_self (k : κ) (m : List (κ × β)) :
    mapGet k (mapDelete k m) = none := by
  induction m with
  | nil => simp [mapGet, mapDelete]
  | cons p rest ih =>
    obtain ⟨k2, v2⟩ := p
    by_cases h : k2 = k <;>
      simp_all [mapGet, mapDelete, List.filter_cons, h]

theorem mapGet_mapDelete_ne (k k2 : κ) (m : List (κ × β)) (h : k ≠ k2) :
    mapGet k (mapDelete k2 m) = mapGet k m := by
  induction m with
  | nil => simp [mapGet, mapDelete]
  | cons p rest ih =>
    obtain ⟨k3, v3⟩ := p
    by_cases h3 : k3 = k2
    · subst h3
      have : k3 ≠ k := fun hc => h hc.symm
      simp_all [mapGet, mapDelete, List.filter_cons, this]
    · by_cases h4 : k3 = k <;>
        simp_all [mapGet, mapDelete, List.filter_cons, h3, h4]

theorem length_mapSet_le (k : κ) (v : β) (m : List (κ × β)) :
    (mapSet k v m).length ≤ m.length + 1 := by
  induction m with
  | nil => simp [mapSet]
  | cons p rest ih =>
    obtain ⟨k2, v2⟩ := p
    by_cases h : k2 = k
    · simp [mapSet, h]
    · simp only [mapSet, if_neg h, List.length_cons]
      omega

theorem length_mapSet_of_isSome (k : κ) (v : β) (m : List (κ × β))
    (h : (mapGet k m).isSome) : (mapSet k v m).length = m.length := by
  induction m with
  | nil => simp [mapGet] at h
  | cons p rest ih =>
    obtain ⟨k2, v2⟩ := p
    by_cases h2 : k2 = k
    · simp [mapSet, h2]
    · simp only [mapGet, if_neg h2] at h
      simp [mapSet, h2, ih h]

end MapLemmas

namespace RateLimit

theorem check_of_bucket (rl : RateLimiter) (ip : String) (now : Int) (b : Bucket)
    (h : mapGet ip rl.buckets = some b) :
    check rl ip now =
      ((checkBucket b rl.maxRequests rl.windowMs now).1,
       { rl with buckets := mapSet ip (checkBucket b rl.maxRequests rl.windowMs now).2 rl.buckets }) := by
  simp [check, h]

theorem checkRun_all_allowed (ip : String) :
    ∀ (ts p : List Int) (rl : RateLimiter),
    mapGet ip rl.buckets = some { timestamps := p, blocked := 0 } →
    p.length + ts.length ≤ rl.maxRequests →
    (∀ t ∈ ts, ∀ x ∈ p ++ ts, x > t - rl.windowMs) →
    (checkRun rl ip ts).1 = List.replicate ts.length true ∧
    mapGet ip (checkRun rl ip ts).2.buckets = some { timestamps := p ++ ts, blocked := 0 } ∧
    (checkRun rl ip ts).2.maxRequests = rl.maxRequests ∧
    (checkRun rl ip ts).2.windowMs = rl.windowMs := by
  intro ts
  induction ts with
  | nil =>
    intro p rl hb _ _
    simpa [checkRun] using hb
  | cons t ts ih =>
    intro p rl hb hlen hwin
    have hfilter : p.filter (fun x => decide (x > t - rl.windowMs)) = p := by
      rw [List.filter_eq_self]
      intro x hx
      have := hwin t (by simp) x (by simp [hx])
      simpa using this
    have hplen : ¬ (p.length ≥ rl.maxRequests) := by
      simp only [List.length_cons] at hlen
      omega
    have hcb : checkBucket { timestamps := p, blocked := 0 } rl.maxRequests rl.windowMs t =
        (true, { timestamps := p ++ [t], blocked := 0 }) := by
      simp [checkBucket, hfilter, hplen]
    have hstep := check_of_bucket rl ip t _ hb
    rw [hcb] at hstep
    set rl1 : RateLimiter :=
      { rl with buckets := mapSet ip { timestamps := p ++ [t], blocked := 0 } rl.buckets } with hrl1
    have hb1 : mapGet ip rl1.buckets = some { timestamps := p ++ [t], blocked := 0 } := by
      simp [hrl1, mapGet_mapSet_self]
    have hlen1 : (p ++ [t]).length + ts.length ≤ rl1.maxRequests := by
      simp only [List.length_append, List.length_singleton, List.length_cons] at hlen ⊢
      simpa [hrl1] using (by omega : p.length + 1 + ts.length ≤ rl.maxRequests)
    have hwin1 : ∀ s ∈ ts, ∀ x ∈ (p ++ [t]) ++ ts, x > s - rl1.windowMs := by
      intro s hs x hx
      have hx2 : x ∈ p ++ t :: ts := by
        simp only [List.mem_append, List.mem_cons, List.mem_singleton] at hx ⊢
        tauto
      have := hwin s (by simp [hs]) x hx2
      simpa [hrl1] using this
    obtain ⟨ih1, ih2, ih3, ih4⟩ := ih (p ++ [t]) rl1 hb1 hlen1 hwin1
    refine ⟨?_, ?_, ?_, ?_⟩
    · simp [checkRun, hstep, ih1, List.replicate_succ]
    · rw [List.append_assoc] at ih2
      simpa [checkRun, hstep] using ih2
    · simpa [checkRun, hstep, hrl1] using ih3
    · simpa [checkRun, hstep, hrl1] using ih4

end RateLimit

/-- C10: the rate limiter buckets Map never exceeds 50,000 origins; a check
from an unseen origin with the map full is rejected without a new bucket.
Every call to check preserves the bound, and the full-map path mutates
nothing. -/
theorem C10_rate_limiter_bounded_origins (rl : RateLimit.RateLimiter)
    (ip : String) (now : Int)
    (hinv : rl.buckets.length ≤ 50000) :
    (RateLimit.check rl ip now).2.buckets.length ≤ 50000 ∧
    (mapGet ip rl.buckets = none → 50000 ≤ rl.buckets.length →
      (RateLimit.check rl ip now).1 = false ∧ (RateLimit.check rl ip now).2 = rl) := by
  constructor
  · match hb : mapGet ip rl.buckets with
    | none =>
      by_cases hfull : rl.buckets.length ≥ RateLimit.MAX_TRACKED_IPS
      · simp only [RateLimit.check, hb, if_pos hfull]
        exact hinv
      · have hlt : rl.buckets.length < 50000 := by
          simpa [RateLimit.MAX_TRACKED_IPS] using hfull
        have := length_mapSet_le ip
          (RateLimit.checkBucket { timestamps := [], blocked := 0 }
            rl.maxRequests rl.windowMs now).2 rl.buckets
        simp only [RateLimit.check, hb, if_neg hfull]
        omega
    | some b =>
      have hsome : (mapGet ip rl.buckets).isSome := by simp [hb]
      have := length_mapSet_of_isSome ip
        (RateLimit.checkBucket b rl.maxRequests rl.windowMs now).2 rl.buckets hsome
      simp only [RateLimit.check, hb]
      omega
  · intro hnone hfull
    have hge : rl.buckets.length ≥ RateLimit.MAX_TRACKED_IPS := by
      simpa [RateLimit.MAX_TRACKED_IPS] using hfull
    simp only [RateLimit.check, hnone, if_pos hge]
    simp

/-- C3: per-origin sliding window.  Starting from a fresh origin, N checks
whose timestamps all lie within one window are all allowed; the (N+1)-th
check at time now is rejected and records a block-until timestamp of
now + W (one full window in the future) while keeping the slid timestamp
list; once the window has elapsed (later ≥ now + W) a further check from
the same origin succeeds again. -/
theorem C3_rate_limiter_sliding_window
    (N : Nat) (W now later : Int) (rl : RateLimit.RateLimiter) (ip : String)
    (times : List Int)
    (hN : 1 ≤ N) (hmax : rl.maxRequests = N) (hwin : rl.windowMs = W)
    (hfresh : mapGet ip rl.buckets = none) (hroom : rl.buckets.length < 50000)
    (hlen : times.length = N)
    (hwindow : ∀ t ∈ times, ∀ x ∈ times, x > t - W)
    (hbefore : ∀ x ∈ times, x ≤ now) (hnow : ∀ x ∈ times, x > now - W)
    (hlater : now + W ≤ later) :
    (RateLimit.checkRun rl ip times).1 = List.replicate N true ∧
    (RateLimit.check (RateLimit.checkRun rl ip times).2 ip now).1 = false ∧
    mapGet ip (RateLimit.check (RateLimit.checkRun rl ip times).2 ip now).2.buckets =
      some { timestamps := times, blocked := now + W } ∧
    (RateLimit.check (RateLimit.check (RateLimit.checkRun rl ip times).2 ip now).2 ip later).1 = true := by
  obtain ⟨t0, rest, rfl⟩ : ∃ t0 rest, times = t0 :: rest := by
    cases times with
    | nil => simp at hlen; omega
    | cons a l => exact ⟨a, l, rfl⟩
  have hnotfull : ¬ (rl.buckets.length ≥ RateLimit.MAX_TRACKED_IPS) := by
    simp only [RateLimit.MAX_TRACKED_IPS, ge_iff_le, not_le]
    exact hroom
  have hcb0 : RateLimit.checkBucket { timestamps := [], blocked := 0 }
      rl.maxRequests rl.windowMs t0 = (true, { timestamps := [t0], blocked := 0 }) := by
    simp [RateLimit.checkBucket]
    omega
  have hstep0 : RateLimit.check rl ip t0 =
      (true, { rl with buckets := mapSet ip { timestamps := [t0], blocked := 0 } rl.buckets }) := by
    simp [RateLimit.check, hfresh, if_neg hnotfull, hcb0]
  set rl1 : RateLimit.RateLimiter :=
    { rl with buckets := mapSet ip { timestamps := [t0], blocked := 0 } rl.buckets } with hrl1
  have hmax1 : rl1.maxRequests = N := by rw [hrl1]; exact hmax
  have hwin1 : rl1.windowMs = W := by rw [hrl1]; exact hwin
  have hb1 : mapGet ip rl1.buckets = some { timestamps := [t0], blocked := 0 } := by
    rw [hrl1]
    exact mapGet_mapSet_self _ _ _
  obtain ⟨hr1, hr2, hr3, hr4⟩ := RateLimit.checkRun_all_allowed ip rest [t0] rl1
    hb1
    (by
      rw [hmax1, ← hlen]
      simp only [List.length_singleton, List.length_cons, List.length_nil]
      omega)
    (by
      intro s hs x hx
      have hx2 : x ∈ t0 :: rest := by simpa using hx
      rw [hwin1]
      exact hwindow s (List.mem_cons_of_mem _ hs) x hx2)
  set r2 : RateLimit.RateLimiter := (RateLimit.checkRun rl1 ip rest).2 with hr2def
  rw [hmax1] at hr3
  rw [hwin1] at hr4
  rw [List.singleton_append] at hr2
  have hrunfold : RateLimit.checkRun rl ip (t0 :: rest) =
      ((true : Bool) :: (RateLimit.checkRun rl1 ip rest).1, r2) := by
    rw [RateLimit.checkRun, hstep0]
  rw [hrunfold]
  dsimp only
  -- the rejected (N+1)-th check
  have hfiltimes : (t0 :: rest).filter
      (fun t => decide (t > now - r2.windowMs)) = t0 :: rest := by
    rw [List.filter_eq_self]
    intro x hx
    rw [hr4]
    simpa using hnow x hx
  have hlenfull : (t0 :: rest).length ≥ r2.maxRequests := by
    rw [hr3, ← hlen]
  have hcbrej : RateLimit.checkBucket { timestamps := t0 :: rest, blocked := 0 }
      r2.maxRequests r2.windowMs now =
      (false, { timestamps := t0 :: rest, blocked := now + W }) := by
    rw [← hr4]
    simp [RateLimit.checkBucket, hfiltimes, hlenfull]
    simpa using hlenfull
  have hsteprej := RateLimit.check_of_bucket r2 ip now _ hr2
  rw [hcbrej] at hsteprej
  rw [hsteprej]
  dsimp only
  refine ⟨by simpa [List.replicate_succ, ← hlen] using hr1, rfl,
    mapGet_mapSet_self _ _ _, ?_⟩
  -- the recovered check after the window has elapsed
  set rl3 : RateLimit.RateLimiter :=
    { r2 with buckets := mapSet ip { timestamps := t0 :: rest, blocked := now + W } r2.buckets }
    with hrl3
  have hmax3 : rl3.maxRequests = N := by rw [hrl3]; exact hr3
  have hwin3 : rl3.windowMs = W := by rw [hrl3]; exact hr4
  have hb3 : mapGet ip rl3.buckets = some { timestamps := t0 :: rest, blocked := now + W } := by
    rw [hrl3]
    exact mapGet_mapSet_self _ _ _
  have hsteprec := RateLimit.check_of_bucket rl3 ip later _ hb3
  rw [hsteprec]
  have hnotblocked : ¬ ((now + W ≠ 0) ∧ now + W > later) := by
    rintro ⟨-, h⟩
    omega
  have hfilnil : (t0 :: rest).filter
      (fun t => decide (t > later - rl3.windowMs)) = [] := by
    rw [List.filter_eq_nil_iff]
    intro x hx
    rw [hwin3]
    have h1 := hbefore x hx
    simp only [decide_eq_true_eq, not_lt]
    omega
  have hlen0 : ¬ (((0 : Nat)) ≥ rl3.maxRequests) := by
    rw [hmax3]
    omega
  simp only [RateLimit.checkBucket, if_neg hnotblocked, hfilnil, List.length_nil,
    if_neg hlen0]

/-- Witness for C3: limiter with maximum 1 and window 10; the single check
at time 0 is allowed, a second check at time 0 is rejected with block-until
10, and a check at time 10 succeeds again. -/
theorem C3_rate_limiter_sliding_window_witness :
    (RateLimit.checkRun { maxRequests := 1, windowMs := 10, buckets := [] } "a" [0]).1 =
      List.replicate 1 true ∧
    (RateLimit.check (RateLimit.checkRun
      { maxRequests := 1, windowMs := 10, buckets := [] } "a" [0]).2 "a" 0).1 = false ∧
    mapGet "a" (RateLimit.check (RateLimit.checkRun
      { maxRequests := 1, windowMs := 10, buckets := [] } "a" [0]).2 "a" 0).2.buckets =
      some { timestamps := [0], blocked := 0 + 10 } ∧
    (RateLimit.check (RateLimit.check (RateLimit.checkRun
      { maxRequests := 1, windowMs := 10, buckets := [] } "a" [0]).2 "a" 0).2 "a" 10).1 = true :=
  C3_rate_limiter_sliding_window 1 10 0 10 _ "a" [0] (by decide) rfl rfl (by decide)
    (by decide) (by decide) (by decide) (by decide) (by decide) (by decide)

/-- Witness for C10 at a concrete limiter state. -/
theorem C10_rate_limiter_bounded_origins_witness :
    (RateLimit.check { maxRequests := 2, windowMs := 10, buckets := [] } "a" 5).2.buckets.length ≤ 50000 ∧
    (mapGet "a" ({ maxRequests := 2, windowMs := 10, buckets := [] } : RateLimit.RateLimiter).buckets = none →
      50000 ≤ ({ maxRequests := 2, windowMs := 10, buckets := [] } : RateLimit.RateLimiter).buckets.length →
      (RateLimit.check { maxRequests := 2, windowMs := 10, buckets := [] } "a" 5).1 = false ∧
      (RateLimit.check { maxRequests := 2, windowMs := 10, buckets := [] } "a" 5).2 =
        { maxRequests := 2, windowMs := 10, buckets := [] }) :=
  C10_rate_limiter_bounded_origins _ _ _ (by decide)

namespace Circuits

theorem circuitsWF_mapSet {circuits : List (Nat × Circuit)} {k : Nat} {v : Circuit}
    (hwf : CircuitsWF circuits) (hv : v.circuitId = k) :
    CircuitsWF (mapSet k v circuits) := by
  intro k2 c2 hk2
  by_cases h : k2 = k
  · subst h
    rw [mapGet_mapSet_self] at hk2
    cases hk2
    exact hv
  · rw [mapGet_mapSet_ne k2 k v circuits (Ne.symm h)] at hk2
    exact hwf k2 c2 hk2

theorem destroyAux_succ (fuel : Nat) (circuits : List (Nat × Circuit)) (circuitId : Nat) :
    destroyAux (fuel + 1) circuits circuitId =
      match mapGet circuitId circuits with
      | none => (circuits, [])
      | some c =>
        let ev : DestroyEvent :=
          { circuitId := circuitId, rx := List.replicate c.rx.length 0,
            tx := List.replicate c.tx.length 0 }
        let circuits1 := mapSet circuitId (zeroKeys c) circuits
        match c.rendezvousPairId with
        | some p =>
          if p = 0 then (mapDelete circuitId circuits1, [ev])
          else
            match mapGet p circuits1 with
            | some pair =>
              let circuits2 := mapSet p { pair with rendezvousPairId := none } circuits1
              let r := destroyAux fuel circuits2 pair.circuitId
              (mapDelete circuitId r.1, ev :: r.2)
            | none => (mapDelete circuitId circuits1, [ev])
        | none => (mapDelete circuitId circuits1, [ev]) := rfl

theorem destroyAux_no_pair (fuel : Nat) (circuits : List (Nat × Circuit)) (q : Nat)
    (c : Circuit) (hc : mapGet q circuits = some c) (hnp : c.rendezvousPairId = none) :
    destroyAux (fuel + 1) circuits q =
      (mapDelete q (mapSet q (zeroKeys c) circuits),
       [{ circuitId := q, rx := List.replicate c.rx.length 0,
          tx := List.replicate c.tx.length 0 }]) := by
  rw [destroyAux_succ]
  simp only [hc, hnp]

theorem destroyAux_fuel (fuel : Nat) (circuits : List (Nat × Circuit)) (q : Nat)
    (hwf : CircuitsWF circuits) :
    destroyAux (2 + fuel) circuits q = destroyAux 2 circuits q := by
  rw [show 2 + fuel = (fuel + 1) + 1 from by omega, show (2 : Nat) = 1 + 1 from rfl]
  rw [destroyAux_succ (fuel + 1) circuits q, destroyAux_succ 1 circuits q]
  cases hc : mapGet q circuits with
  | none => rfl
  | some c =>
    cases hp : c.rendezvousPairId with
    | none => simp only [hc, hp]
    | some p =>
      by_cases hp0 : p = 0
      · simp only [hc, hp, if_pos hp0]
      · cases hpair : mapGet p (mapSet q (zeroKeys c) circuits) with
        | none => simp only [hc, hp, if_neg hp0, hpair]
        | some pair =>
          have hwf1 : CircuitsWF (mapSet q (zeroKeys c) circuits) :=
            circuitsWF_mapSet hwf (by simpa [zeroKeys] using hwf q c hc)
          have hpairid : pair.circuitId = p := hwf1 p pair hpair
          have hlk : mapGet p (mapSet p { pair with rendezvousPairId := none }
              (mapSet q (zeroKeys c) circuits)) = some { pair with rendezvousPairId := none } :=
            mapGet_mapSet_self _ _ _
          have e1 := destroyAux_no_pair fuel
            (mapSet p { pair with rendezvousPairId := none } (mapSet q (zeroKeys c) circuits))
            p { pair with rendezvousPairId := none } hlk rfl
          have e0 := destroyAux_no_pair 0
            (mapSet p { pair with rendezvousPairId := none } (mapSet q (zeroKeys c) circuits))
            p { pair with rendezvousPairId := none } hlk rfl
          rw [Nat.zero_add] at e0
          simp only [hc, hp, if_neg hp0, hpair]
          rw [hpairid] at e1 e0 ⊢
          rw [e1, e0]

end Circuits

/-- C9 counterexample: the claimed pair destruction fails when the
rendezvous partner's circuit id is 0.  circuits.cjs line 41 guards the
cascade with a truthiness test on the pairId number, and 0 is falsy, so
destroying circuit 1 of a mutually paired, well-formed registry whose
partner is circuit 0 leaves circuit 0 registered with its key buffers
un-zeroed and its pairId still pointing at the destroyed circuit; the
destruction trace zero-fills only circuit 1's keys.  Circuit id 0 is
reachable: handlePacket reads circuit ids unchecked from the wire with
readUInt32BE. -/
theorem C9_destroy_zero_pair_counterexample :
    Circuits.CircuitsWF
      [(1, { circuitId := 1, rx := [7, 7], tx := [9], inboundWs := 0, outboundWs := none,
             lastActivity := 0, nextHop := none, rendezvousPairId := some 0 }),
       (0, { circuitId := 0, rx := [5], tx := [6, 6], inboundWs := 0, outboundWs := none,
             lastActivity := 0, nextHop := none, rendezvousPairId := some 1 })] ∧
    (Circuits.destroyCircuit
      [(1, { circuitId := 1, rx := [7, 7], tx := [9], inboundWs := 0, outboundWs := none,
             lastActivity := 0, nextHop := none, rendezvousPairId := some 0 }),
       (0, { circuitId := 0, rx := [5], tx := [6, 6], inboundWs := 0, outboundWs := none,
             lastActivity := 0, nextHop := none, rendezvousPairId := some 1 })] 1).1 =
      [(0, { circuitId := 0, rx := [5], tx := [6, 6], inboundWs := 0, outboundWs := none,
             lastActivity := 0, nextHop := none, rendezvousPairId := some 1 })] ∧
    (Circuits.destroyCircuit
      [(1, { circuitId := 1, rx := [7, 7], tx := [9], inboundWs := 0, outboundWs := none,
             lastActivity := 0, nextHop := none, rendezvousPairId := some 0 }),
       (0, { circuitId := 0, rx := [5], tx := [6, 6], inboundWs := 0, outboundWs := none,
             lastActivity := 0, nextHop := none, rendezvousPairId := some 1 })] 1).2 =
      [{ circuitId := 1, rx := [0, 0], tx := [0] }] := by
  refine ⟨?_, by decide, by decide⟩
  intro k c hk
  by_cases hk1 : (1 : Nat) = k
  · subst hk1
    simp [mapGet] at hk
    simp [← hk]
  · by_cases hk0 : (0 : Nat) = k
    · subst hk0
      simp [mapGet] at hk
      simp [← hk]
    · simp [mapGet, hk1, hk0] at hk

/-- C9 (amended): destroyCircuit always terminates on a well-formed
registry (a recursion bound of 2 is exact: the partner pairId is cleared
before the cascade, so the cascade recurses at most once), and, provided
the partner's circuit id is nonzero (a stored pair id of 0 is falsy in
JavaScript and skips the cascade), destroying one side of a mutually
paired pair of circuits removes both entries from the registry while
zero-filling both their receive and send key buffers. -/
theorem C9_destroy_paired_circuits_amended
    (circuits : List (Nat × Circuits.Circuit)) (id1 id2 : Nat)
    (c1 c2 : Circuits.Circuit)
    (hwf : Circuits.CircuitsWF circuits)
    (h1 : mapGet id1 circuits = some c1) (h2 : mapGet id2 circuits = some c2)
    (hp1 : c1.rendezvousPairId = some id2) (_hp2 : c2.rendezvousPairId = some id1)
    (hne : id1 ≠ id2) (hz : id2 ≠ 0) :
    (∀ fuel q, Circuits.destroyAux (2 + fuel) circuits q = Circuits.destroyCircuit circuits q) ∧
    mapGet id1 (Circuits.destroyCircuit circuits id1).1 = none ∧
    mapGet id2 (Circuits.destroyCircuit circuits id1).1 = none ∧
    (Circuits.destroyCircuit circuits id1).2 =
      [{ circuitId := id1, rx := List.replicate c1.rx.length 0,
         tx := List.replicate c1.tx.length 0 },
       { circuitId := id2, rx := List.replicate c2.rx.length 0,
         tx := List.replicate c2.tx.length 0 }] := by
  have hc2id : c2.circuitId = id2 := hwf id2 c2 h2
  have hlook2 : mapGet id2 (mapSet id1 (Circuits.zeroKeys c1) circuits) = some c2 := by
    rw [mapGet_mapSet_ne id2 id1 _ _ hne]
    exact h2
  have hlk : mapGet id2 (mapSet id2 { c2 with rendezvousPairId := none }
      (mapSet id1 (Circuits.zeroKeys c1) circuits)) =
      some { c2 with rendezvousPairId := none } := mapGet_mapSet_self _ _ _
  have e0 := Circuits.destroyAux_no_pair 0
    (mapSet id2 { c2 with rendezvousPairId := none }
      (mapSet id1 (Circuits.zeroKeys c1) circuits))
    id2 { c2 with rendezvousPairId := none } hlk rfl
  rw [Nat.zero_add] at e0
  have hcalc : Circuits.destroyCircuit circuits id1 =
      (mapDelete id1 (mapDelete id2
        (mapSet id2 (Circuits.zeroKeys { c2 with rendezvousPairId := none })
          (mapSet id2 { c2 with rendezvousPairId := none }
            (mapSet id1 (Circuits.zeroKeys c1) circuits)))),
       [{ circuitId := id1, rx := List.replicate c1.rx.length 0,
          tx := List.replicate c1.tx.length 0 },
        { circuitId := id2, rx := List.replicate c2.rx.length 0,
          tx := List.replicate c2.tx.length 0 }]) := by
    rw [Circuits.destroyCircuit, show (2 : Nat) = 1 + 1 from rfl,
      Circuits.destroyAux_succ 1 circuits id1]
    simp only [h1, hp1, if_neg hz, hlook2]
    rw [hc2id] at e0 ⊢
    rw [e0]
  refine ⟨?_, ?_, ?_, ?_⟩
  · intro fuel q
    exact Circuits.destroyAux_fuel fuel circuits q hwf
  · rw [hcalc]
    exact mapGet_mapDelete_self _ _
  · rw [hcalc]
    rw [mapGet_mapDelete_ne id2 id1 _ (Ne.symm hne)]
    exact mapGet_mapDelete_self _ _
  · rw [hcalc]

/-- Witness for C9 (amended): two concrete mutually paired circuits 1 and
2; the partner id 2 is nonzero, so the cascade fires. -/
theorem C9_destroy_paired_circuits_amended_witness :
    (∀ fuel q, Circuits.destroyAux (2 + fuel)
      [(1, { circuitId := 1, rx := [7, 7], tx := [9], inboundWs := 0, outboundWs := none,
             lastActivity := 0, nextHop := none, rendezvousPairId := some 2 }),
       (2, { circuitId := 2, rx := [5], tx := [6, 6], inboundWs := 0, outboundWs := none,
             lastActivity := 0, nextHop := none, rendezvousPairId := some 1 })] q =
      Circuits.destroyCircuit
      [(1, { circuitId := 1, rx := [7, 7], tx := [9], inboundWs := 0, outboundWs := none,
             lastActivity := 0, nextHop := none, rendezvousPairId := some 2 }),
       (2, { circuitId := 2, rx := [5], tx := [6, 6], inboundWs := 0, outboundWs := none,
             lastActivity := 0, nextHop := none, rendezvousPairId := some 1 })] q) ∧
    mapGet 1 (Circuits.destroyCircuit
      [(1, { circuitId := 1, rx := [7, 7], tx := [9], inboundWs := 0, outboundWs := none,
             lastActivity := 0, nextHop := none, rendezvousPairId := some 2 }),
       (2, { circuitId := 2, rx := [5], tx := [6, 6], inboundWs := 0, outboundWs := none,
             lastActivity := 0, nextHop := none, rendezvousPairId := some 1 })] 1).1 = none ∧
    mapGet 2 (Circuits.destroyCircuit
      [(1, { circuitId := 1, rx := [7, 7], tx := [9], inboundWs := 0, outboundWs := none,
             lastActivity := 0, nextHop := none, rendezvousPairId := some 2 }),
       (2, { circuitId := 2, rx := [5], tx := [6, 6], inboundWs := 0, outboundWs := none,
             lastActivity := 0, nextHop := none, rendezvousPairId := some 1 })] 1).1 = none ∧
    (Circuits.destroyCircuit
      [(1, { circuitId := 1, rx := [7, 7], tx := [9], inboundWs := 0, outboundWs := none,
             lastActivity := 0, nextHop := none, rendezvousPairId := some 2 }),
       (2, { circuitId := 2, rx := [5], tx := [6, 6], inboundWs := 0, outboundWs := none,
             lastActivity := 0, nextHop := none, rendezvousPairId := some 1 })] 1).2 =
      [{ circuitId := 1, rx := List.replicate 2 0, tx := List.replicate 1 0 },
       { circuitId := 2, rx := List.replicate 1 0, tx := List.replicate 2 0 }] :=
  C9_destroy_paired_circuits_amended _ 1 2
    { circuitId := 1, rx := [7, 7], tx := [9], inboundWs := 0, outboundWs := none,
      lastActivity := 0, nextHop := none, rendezvousPairId := some 2 }
    { circuitId := 2, rx := [5], tx := [6, 6], inboundWs := 0, outboundWs := none,
      lastActivity := 0, nextHop := none, rendezvousPairId := some 1 }
    (by
      intro k c hk
      by_cases hk1 : (1 : Nat) = k
      · subst hk1
        simp [mapGet] at hk
        simp [← hk]
      · by_cases hk2 : (2 : Nat) = k
        · subst hk2
          simp [mapGet] at hk
          simp [← hk]
        · simp [mapGet, hk1, hk2] at hk)
    (by decide) (by decide) (by decide) (by decide) (by decide) (by decide)

/-- C1: a pending rendezvous cookie is consumed exactly once.  After a
successful establish for circuit cid1, a first join by circuit cid2 while
both circuits exist succeeds, returns the waiting circuit id cid1, and
links the two circuits symmetrically through their rendezvousPairId
fields; any later join with the same cookie fails because the cookie entry
was deleted. -/
theorem C1_rendezvous_cookie_consumed_once
    (st st1 : RelayState) (cid1 cid2 : Nat) (cookie : List Nat) (now1 now2 : Int)
    (c1 c2 : Circuits.Circuit)
    (hne : cid1 ≠ cid2)
    (hest : Rendezvous.establishRendezvous cid1 cookie now1 st = (true, st1))
    (h1 : mapGet cid1 st1.circuits = some c1)
    (h2 : mapGet cid2 st1.circuits = some c2) :
    (Rendezvous.joinRendezvous cid2 cookie now2 st1).1.success = true ∧
    (Rendezvous.joinRendezvous cid2 cookie now2 st1).1.visitorCircuitId = some cid1 ∧
    (mapGet cid1 (Rendezvous.joinRendezvous cid2 cookie now2 st1).2.circuits).map
      Circuits.Circuit.rendezvousPairId = some (some cid2) ∧
    (mapGet cid2 (Rendezvous.joinRendezvous cid2 cookie now2 st1).2.circuits).map
      Circuits.Circuit.rendezvousPairId = some (some cid1) ∧
    ∀ cid3 now3,
      (Rendezvous.joinRendezvous cid3 cookie now3
        (Rendezvous.joinRendezvous cid2 cookie now2 st1).2).1.success = false := by
  simp only [Rendezvous.establishRendezvous] at hest
  split_ifs at hest with hc20 hdup hcap
  · exact absurd (congrArg Prod.fst hest) (by simp)
  · exact absurd (congrArg Prod.fst hest) (by simp)
  · exact absurd (congrArg Prod.fst hest) (by simp)
  obtain ⟨-, hst1⟩ := Prod.mk.injEq _ _ _ _ |>.mp hest
  have hst1p : st1.pendingRendezvous =
      mapSet (bytesToHex cookie) { circuitId := cid1, timestamp := now1 }
        st.pendingRendezvous := by
    rw [← hst1]
  have hpendget : mapGet (bytesToHex cookie) st1.pendingRendezvous =
      some { circuitId := cid1, timestamp := now1 } := by
    rw [hst1p]
    exact mapGet_mapSet_self _ _ _
  have htouch1 : Circuits.touchCircuit cid1 now2 st1.circuits =
      mapSet cid1 { c1 with lastActivity := now2 } st1.circuits := by
    simp only [Circuits.touchCircuit, h1]
  have hg2 : mapGet cid2 (mapSet cid1 { c1 with lastActivity := now2 } st1.circuits) =
      some c2 := by
    rw [mapGet_mapSet_ne cid2 cid1 _ _ hne]
    exact h2
  have htouch2 : Circuits.touchCircuit cid2 now2
      (mapSet cid1 { c1 with lastActivity := now2 } st1.circuits) =
      mapSet cid2 { c2 with lastActivity := now2 }
        (mapSet cid1 { c1 with lastActivity := now2 } st1.circuits) := by
    simp only [Circuits.touchCircuit, hg2]
  have hv : mapGet cid1 (mapSet cid2 { c2 with lastActivity := now2 }
      (mapSet cid1 { c1 with lastActivity := now2 } st1.circuits)) =
      some { c1 with lastActivity := now2 } := by
    rw [mapGet_mapSet_ne cid1 cid2 _ _ (Ne.symm hne)]
    exact mapGet_mapSet_self _ _ _
  have hh : mapGet cid2 (mapSet cid2 { c2 with lastActivity := now2 }
      (mapSet cid1 { c1 with lastActivity := now2 } st1.circuits)) =
      some { c2 with lastActivity := now2 } := mapGet_mapSet_self _ _ _
  simp only [Rendezvous.joinRendezvous, hpendget, htouch1, htouch2, hv, hh]
  refine ⟨by trivial, by trivial, ?_, ?_, ?_⟩
  · rw [mapGet_mapSet_ne cid1 cid2 _ _ (Ne.symm hne), mapGet_mapSet_self]
    rfl
  · rw [mapGet_mapSet_self]
    rfl
  · intro cid3 now3
    simp only [Rendezvous.joinRendezvous, mapGet_mapDelete_self]

/-- Witness for C1: establish circuit 1 with an all-zero 20-byte cookie,
then join with circuit 2. -/
theorem C1_rendezvous_cookie_consumed_once_witness :
    (Rendezvous.joinRendezvous 2 (List.replicate 20 0) 5
      { circuits :=
          [(1, { circuitId := 1, rx := [1], tx := [2], inboundWs := 0, outboundWs := none,
                 lastActivity := 0, nextHop := none, rendezvousPairId := none }),
           (2, { circuitId := 2, rx := [3], tx := [4], inboundWs := 0, outboundWs := none,
                 lastActivity := 0, nextHop := none, rendezvousPairId := none })],
        pendingRendezvous :=
          [(bytesToHex (List.replicate 20 0), { circuitId := 1, timestamp := 0 })] }).1.success
      = true ∧
    (Rendezvous.joinRendezvous 2 (List.replicate 20 0) 5
      { circuits :=
          [(1, { circuitId := 1, rx := [1], tx := [2], inboundWs := 0, outboundWs := none,
                 lastActivity := 0, nextHop := none, rendezvousPairId := none }),
           (2, { circuitId := 2, rx := [3], tx := [4], inboundWs := 0, outboundWs := none,
                 lastActivity := 0, nextHop := none, rendezvousPairId := none })],
        pendingRendezvous :=
          [(bytesToHex (List.replicate 20 0), { circuitId := 1, timestamp := 0 })] }).1.visitorCircuitId
      = some 1 ∧
    (mapGet 1 (Rendezvous.joinRendezvous 2 (List.replicate 20 0) 5
      { circuits :=
          [(1, { circuitId := 1, rx := [1], tx := [2], inboundWs := 0, outboundWs := none,
                 lastActivity := 0, nextHop := none, rendezvousPairId := none }),
           (2, { circuitId := 2, rx := [3], tx := [4], inboundWs := 0, outboundWs := none,
                 lastActivity := 0, nextHop := none, rendezvousPairId := none })],
        pendingRendezvous :=
          [(bytesToHex (List.replicate 20 0), { circuitId := 1, timestamp := 0 })] }).2.circuits).map
      Circuits.Circuit.rendezvousPairId = some (some 2) ∧
    (mapGet 2 (Rendezvous.joinRendezvous 2 (List.replicate 20 0) 5
      { circuits :=
          [(1, { circuitId := 1, rx := [1], tx := [2], inboundWs := 0, outboundWs := none,
                 lastActivity := 0, nextHop := none, rendezvousPairId := none }),
           (2, { circuitId := 2, rx := [3], tx := [4], inboundWs := 0, outboundWs := none,
                 lastActivity := 0, nextHop := none, rendezvousPairId := none })],
        pendingRendezvous :=
          [(bytesToHex (List.replicate 20 0), { circuitId := 1, timestamp := 0 })] }).2.circuits).map
      Circuits.Circuit.rendezvousPairId = some (some 1) ∧
    ∀ cid3 now3,
      (Rendezvous.joinRendezvous cid3 (List.replicate 20 0) now3
        (Rendezvous.joinRendezvous 2 (List.replicate 20 0) 5
          { circuits :=
              [(1, { circuitId := 1, rx := [1], tx := [2], inboundWs := 0, outboundWs := none,
                     lastActivity := 0, nextHop := none, rendezvousPairId := none }),
               (2, { circuitId := 2, rx := [3], tx := [4], inboundWs := 0, outboundWs := none,
                     lastActivity := 0, nextHop := none, rendezvousPairId := none })],
            pendingRendezvous :=
              [(bytesToHex (List.replicate 20 0), { circuitId := 1, timestamp := 0 })] }).2).1.success
        = false :=
  C1_rendezvous_cookie_consumed_once
    { circuits :=
        [(1, { circuitId := 1, rx := [1], tx := [2], inboundWs := 0, outboundWs := none,
               lastActivity := 0, nextHop := none, rendezvousPairId := none }),
         (2, { circuitId := 2, rx := [3], tx := [4], inboundWs := 0, outboundWs := none,
               lastActivity := 0, nextHop := none, rendezvousPairId := none })],
      pendingRendezvous := [] }
    { circuits :=
        [(1, { circuitId := 1, rx := [1], tx := [2], inboundWs := 0, outboundWs := none,
               lastActivity := 0, nextHop := none, rendezvousPairId := none }),
         (2, { circuitId := 2, rx := [3], tx := [4], inboundWs := 0, outboundWs := none,
               lastActivity := 0, nextHop := none, rendezvousPairId := none })],
      pendingRendezvous :=
        [(bytesToHex (List.replicate 20 0), { circuitId := 1, timestamp := 0 })] }
    1 2 (List.replicate 20 0) 0 5
    { circuitId := 1, rx := [1], tx := [2], inboundWs := 0, outboundWs := none,
      lastActivity := 0, nextHop := none, rendezvousPairId := none }
    { circuitId := 2, rx := [3], tx := [4], inboundWs := 0, outboundWs := none,
      lastActivity := 0, nextHop := none, rendezvousPairId := none }
    (by decide) (by rfl) (by rfl) (by rfl)

namespace Tracker

theorem heartbeat_parse (roomIdBytes rest : List Nat) (h32 : roomIdBytes.length = 32) :
    ((MSG_HEARTBEAT :: (roomIdBytes ++ rest)).drop 1).take 32 = roomIdBytes := by
  rw [List.drop_one, List.tail_cons, ← h32]
  exact List.take_left _ _

end Tracker

/-- C7: a HEARTBEAT for an unknown room id answers failure (0x00) and
leaves the tracker state unchanged (no room is created); for a known room
id it answers success (0x01) and only resets that room expiry to
now plus the room TTL. -/
theorem C7_heartbeat_unknown_room
    (roomTtlMs : Nat) (roomIdBytes rest : List Nat) (now : Int)
    (st : Tracker.TrackerState) (h32 : roomIdBytes.length = 32) :
    (mapGet (bytesToHex roomIdBytes) st.rooms = none →
      Tracker.handleHeartbeat roomTtlMs (Tracker.MSG_HEARTBEAT :: (roomIdBytes ++ rest)) now st =
        (some [Tracker.MSG_RESPONSE, 0x00], st)) ∧
    (∀ room, mapGet (bytesToHex roomIdBytes) st.rooms = some room →
      Tracker.handleHeartbeat roomTtlMs (Tracker.MSG_HEARTBEAT :: (roomIdBytes ++ rest)) now st =
        (some [Tracker.MSG_RESPONSE, 0x01],
         { st with rooms :=
                     mapSet (bytesToHex roomIdBytes)
                       { room with expiresAt := now + roomTtlMs } st.rooms })) := by
  have hlen : ¬ ((Tracker.MSG_HEARTBEAT :: (roomIdBytes ++ rest)).length < 33) := by
    simp only [List.length_cons, List.length_append]
    omega
  have hparse := Tracker.heartbeat_parse roomIdBytes rest h32
  constructor
  · intro hn
    simp only [Tracker.handleHeartbeat, if_neg hlen, hparse, hn]
  · intro room hr
    simp only [Tracker.handleHeartbeat, if_neg hlen, hparse, hr]

/-- Witness for C7 with an all-zero room id against an empty tracker and
against a tracker holding that room. -/
theorem C7_heartbeat_unknown_room_witness :
    (mapGet (bytesToHex (List.replicate 32 0))
        ({ rooms := [], circuitSessions := [], federatedRooms := [] } : Tracker.TrackerState).rooms = none →
      Tracker.handleHeartbeat 120000 (Tracker.MSG_HEARTBEAT :: (List.replicate 32 0 ++ [])) 7
        { rooms := [], circuitSessions := [], federatedRooms := [] } =
        (some [Tracker.MSG_RESPONSE, 0x00],
         { rooms := [], circuitSessions := [], federatedRooms := [] })) ∧
    (∀ room, mapGet (bytesToHex (List.replicate 32 0))
        ({ rooms := [], circuitSessions := [], federatedRooms := [] } : Tracker.TrackerState).rooms = some room →
      Tracker.handleHeartbeat 120000 (Tracker.MSG_HEARTBEAT :: (List.replicate 32 0 ++ [])) 7
        { rooms := [], circuitSessions := [], federatedRooms := [] } =
        (some [Tracker.MSG_RESPONSE, 0x01],
         { rooms :=
             mapSet (bytesToHex (List.replicate 32 0))
               { room with expiresAt := 7 + 120000 } [],
           circuitSessions := [], federatedRooms := [] })) :=
  C7_heartbeat_unknown_room 120000 (List.replicate 32 0) [] 7
    { rooms := [], circuitSessions := [], federatedRooms := [] } (by decide)

section ByteLemmas

theorem drop_append_len {α : Type} (l₁ l₂ : List α) (k : Nat) :
    (l₁ ++ l₂).drop (l₁.length + k) = l₂.drop k := by
  induction l₁ with
  | nil => simp
  | cons a l ih =>
    rw [List.cons_append, List.length_cons,
      show l.length + 1 + k = (l.length + k) + 1 from by omega,
      List.drop_succ_cons]
    exact ih

end ByteLemmas

/-- C4: re-registering an existing room id keeps its createdAt and sets
expiresAt to now plus the room TTL (the metadata, relay, privacy flag and
registering circuit are refreshed); a REGISTER for a new room id while the
room table is at capacity returns the failure response and changes no
state. -/
theorem C4_register_idempotent_createdAt
    (utf8 : List Nat → String) (roomTtlMs maxRooms : Nat)
    (flags circuitId : Nat) (roomIdBytes relay meta : List Nat) (now : Int)
    (st : Tracker.TrackerState)
    (h32 : roomIdBytes.length = 32) (h16 : relay.length < 65536) :
    (∀ r, mapGet (bytesToHex roomIdBytes) st.rooms = some r →
      Tracker.handleRegister utf8 roomTtlMs maxRooms
        (Tracker.MSG_REGISTER :: flags :: (roomIdBytes ++ (be2 relay.length ++ (relay ++ meta))))
        circuitId now st =
      (some [Tracker.MSG_RESPONSE, 0x01],
       { st with
          rooms :=
            mapSet (bytesToHex roomIdBytes)
              { metadata := meta, entryRelay := utf8 relay,
                isPrivate := decide (flags % 2 = 1), createdAt := r.createdAt,
                expiresAt := now + roomTtlMs } st.rooms,
          circuitSessions :=
            mapSet (bytesToHex roomIdBytes) circuitId st.circuitSessions })) ∧
    (mapGet (bytesToHex roomIdBytes) st.rooms = none → st.rooms.length ≥ maxRooms →
      Tracker.handleRegister utf8 roomTtlMs maxRooms
        (Tracker.MSG_REGISTER :: flags :: (roomIdBytes ++ (be2 relay.length ++ (relay ++ meta))))
        circuitId now st = (some [Tracker.MSG_RESPONSE, 0x00], st)) := by
  have hlen1 : ¬ ((Tracker.MSG_REGISTER :: flags ::
      (roomIdBytes ++ (be2 relay.length ++ (relay ++ meta)))).length < 36) := by
    simp only [List.length_cons, List.length_append, be2]
    omega
  have hgd34 : (Tracker.MSG_REGISTER :: flags ::
      (roomIdBytes ++ (be2 relay.length ++ (relay ++ meta)))).getD 34 0 =
      (roomIdBytes ++ (be2 relay.length ++ (relay ++ meta))).getD 32 0 := rfl
  have hgd35 : (Tracker.MSG_REGISTER :: flags ::
      (roomIdBytes ++ (be2 relay.length ++ (relay ++ meta)))).getD 35 0 =
      (roomIdBytes ++ (be2 relay.length ++ (relay ++ meta))).getD 33 0 := rfl
  have h2 : (roomIdBytes ++ (be2 relay.length ++ (relay ++ meta))).getD 32 0 =
      (be2 relay.length ++ (relay ++ meta)).getD 0 0 := by
    rw [List.getD_append_right _ _ _ _ (by omega), h32]
  have h3 : (roomIdBytes ++ (be2 relay.length ++ (relay ++ meta))).getD 33 0 =
      (be2 relay.length ++ (relay ++ meta)).getD 1 0 := by
    rw [List.getD_append_right _ _ _ _ (by omega), h32]
  have h16eq : readUInt16BE (Tracker.MSG_REGISTER :: flags ::
      (roomIdBytes ++ (be2 relay.length ++ (relay ++ meta)))) 34 = relay.length := by
    simp only [readUInt16BE, show (34 : Nat) + 1 = 35 from rfl]
    rw [hgd34, hgd35, h2, h3]
    show relay.length / 256 * 256 + relay.length % 256 = relay.length
    omega
  have hlen2 : ¬ ((Tracker.MSG_REGISTER :: flags ::
      (roomIdBytes ++ (be2 relay.length ++ (relay ++ meta)))).length <
      36 + relay.length) := by
    simp only [List.length_cons, List.length_append, be2]
    omega
  have hdrop2take : ((Tracker.MSG_REGISTER :: flags ::
      (roomIdBytes ++ (be2 relay.length ++ (relay ++ meta)))).drop 2).take 32 =
      roomIdBytes := by
    rw [show (Tracker.MSG_REGISTER :: flags ::
      (roomIdBytes ++ (be2 relay.length ++ (relay ++ meta)))).drop 2 =
      roomIdBytes ++ (be2 relay.length ++ (relay ++ meta)) from rfl, ← h32]
    exact List.take_left _ _
  have hdrop36 : (Tracker.MSG_REGISTER :: flags ::
      (roomIdBytes ++ (be2 relay.length ++ (relay ++ meta)))).drop 36 =
      relay ++ meta := by
    rw [show (Tracker.MSG_REGISTER :: flags ::
        (roomIdBytes ++ (be2 relay.length ++ (relay ++ meta)))).drop 36 =
        (roomIdBytes ++ (be2 relay.length ++ (relay ++ meta))).drop 34 from rfl,
      show (34 : Nat) = roomIdBytes.length + 2 from by omega,
      drop_append_len]
    rfl
  have hrelay2 : ((Tracker.MSG_REGISTER :: flags ::
      (roomIdBytes ++ (be2 relay.length ++ (relay ++ meta)))).drop 36).take relay.length =
      relay := by
    rw [hdrop36]
    exact List.take_left _ _
  have hmeta2 : (Tracker.MSG_REGISTER :: flags ::
      (roomIdBytes ++ (be2 relay.length ++ (relay ++ meta)))).drop (36 + relay.length) =
      meta := by
    rw [← List.drop_drop relay.length 36, hdrop36, List.drop_left]
  have hgd1 : (Tracker.MSG_REGISTER :: flags ::
      (roomIdBytes ++ (be2 relay.length ++ (relay ++ meta)))).getD 1 0 = flags := rfl
  constructor
  · intro r hr
    simp only [Tracker.handleRegister]
    rw [if_neg hlen1, h16eq, if_neg hlen2, hdrop2take, hrelay2, hmeta2, hgd1]
    simp [hr]
  · intro hn hcap
    simp only [Tracker.handleRegister]
    rw [if_neg hlen1, h16eq, if_neg hlen2, hdrop2take]
    simp [hn, hcap]

/-- Witness for C4: re-register a concrete room over a one-room tracker at
capacity one; the same state also exercises the capacity rejection arm. -/
theorem C4_register_idempotent_createdAt_witness :
    (∀ r, mapGet (bytesToHex (List.replicate 32 0))
        ({ rooms := [(bytesToHex (List.replicate 32 0),
             { metadata := [], entryRelay := "x", isPrivate := false,
               createdAt := 1, expiresAt := 2 })],
           circuitSessions := [], federatedRooms := [] } : Tracker.TrackerState).rooms = some r →
      Tracker.handleRegister (fun _ => "r") 120000 1
        (Tracker.MSG_REGISTER :: 0 :: (List.replicate 32 0 ++ (be2 [119].length ++ ([119] ++ [5]))))
        9 3
        { rooms := [(bytesToHex (List.replicate 32 0),
            { metadata := [], entryRelay := "x", isPrivate := false,
              createdAt := 1, expiresAt := 2 })],
          circuitSessions := [], federatedRooms := [] } =
      (some [Tracker.MSG_RESPONSE, 0x01],
       { rooms :=
           mapSet (bytesToHex (List.replicate 32 0))
             { metadata := [5], entryRelay := (fun (_ : List Nat) => "r") [119],
               isPrivate := decide ((0 : Nat) % 2 = 1), createdAt := r.createdAt,
               expiresAt := 3 + 120000 }
             [(bytesToHex (List.replicate 32 0),
               { metadata := [], entryRelay := "x", isPrivate := false,
                 createdAt := 1, expiresAt := 2 })],
         circuitSessions := mapSet (bytesToHex (List.replicate 32 0)) 9 [],
         federatedRooms := [] })) ∧
    (mapGet (bytesToHex (List.replicate 32 0))
        ({ rooms := [(bytesToHex (List.replicate 32 0),
             { metadata := [], entryRelay := "x", isPrivate := false,
               createdAt := 1, expiresAt := 2 })],
           circuitSessions := [], federatedRooms := [] } : Tracker.TrackerState).rooms = none →
      ({ rooms := [(bytesToHex (List.replicate 32 0),
           { metadata := [], entryRelay := "x", isPrivate := false,
             createdAt := 1, expiresAt := 2 })],
         circuitSessions := [], federatedRooms := [] } : Tracker.TrackerState).rooms.length ≥ 1 →
      Tracker.handleRegister (fun _ => "r") 120000 1
        (Tracker.MSG_REGISTER :: 0 :: (List.replicate 32 0 ++ (be2 [119].length ++ ([119] ++ [5]))))
        9 3
        { rooms := [(bytesToHex (List.replicate 32 0),
            { metadata := [], entryRelay := "x", isPrivate := false,
              createdAt := 1, expiresAt := 2 })],
          circuitSessions := [], federatedRooms := [] } =
      (some [Tracker.MSG_RESPONSE, 0x00],
       { rooms := [(bytesToHex (List.replicate 32 0),
           { metadata := [], entryRelay := "x", isPrivate := false,
             createdAt := 1, expiresAt := 2 })],
         circuitSessions := [], federatedRooms := [] })) :=
  C4_register_idempotent_createdAt (fun _ => "r") 120000 1 0 9
    (List.replicate 32 0) [119] [5] 3
    { rooms := [(bytesToHex (List.replicate 32 0),
        { metadata := [], entryRelay := "x", isPrivate := false,
          createdAt := 1, expiresAt := 2 })],
      circuitSessions := [], federatedRooms := [] }
    (by decide) (by decide)

namespace Tracker

theorem queryAll_complete (l : List QEntry) (c : Nat) (hc : 1 ≤ c) :
    ∀ fuel cursor, cursor ≤ l.length → l.length - cursor < fuel →
    queryAll l c fuel cursor = l.drop cursor := by
  intro fuel
  induction fuel with
  | zero =>
    intro cursor h1 h2
    omega
  | succ fuel ih =>
    intro cursor h1 h2
    simp only [queryAll, queryPage]
    rw [Nat.min_eq_left h1]
    by_cases hcase : l.length - cursor < c
    · have htake : (l.drop cursor).take c = l.drop cursor :=
        List.take_of_length_le (by rw [List.length_drop]; omega)
      rw [htake, if_pos (by rw [List.length_drop]; omega)]
    · have hslen : ((l.drop cursor).take c).length = c := by
        rw [List.length_take, List.length_drop]
        omega
      rw [if_neg (by rw [hslen]; omega), hslen,
        ih (cursor + c) (by omega) (by omega),
        ← List.drop_drop c cursor l, List.take_append_drop]

end Tracker

/-- C2: QUERY pagination round-trip.  Parsing is exact (a count above 100
is clamped to 100), and for any page size c between 1 and 100, repeatedly
querying from cursor 0 and passing the returned next cursor yields the
whole public room list (local then non-shadowed federated, expired and
private rooms excluded) exactly once; the iteration terminates within
list length plus one pages (more fuel never changes the result), the last
page being the first one shorter than c. -/
theorem C2_query_pagination
    (st : Tracker.TrackerState) (now : Int) (c cursor count k : Nat)
    (hc1 : 1 ≤ c) (_hc2 : c ≤ 100)
    (_hcur : cursor < 4294967296) (_hcount : count < 65536) :
    Tracker.handleQuery (Tracker.MSG_QUERY :: (be4 cursor ++ be2 count)) now st =
      some (Tracker.queryPage (Tracker.publicRoomsQuery st now) cursor
        (if count > 100 then 100 else count)) ∧
    Tracker.queryAll (Tracker.publicRoomsQuery st now) c
      ((Tracker.publicRoomsQuery st now).length + 1) 0 =
      Tracker.publicRoomsQuery st now ∧
    Tracker.queryAll (Tracker.publicRoomsQuery st now) c
      ((Tracker.publicRoomsQuery st now).length + 1 + k) 0 =
      Tracker.publicRoomsQuery st now := by
  have h32r : readUInt32BE (Tracker.MSG_QUERY :: (be4 cursor ++ be2 count)) 1 = cursor := by
    show cursor / 16777216 * 16777216 + cursor / 65536 % 256 * 65536 +
      cursor / 256 % 256 * 256 + cursor % 256 = cursor
    omega
  have h16r : readUInt16BE (Tracker.MSG_QUERY :: (be4 cursor ++ be2 count)) 5 = count := by
    show count / 256 * 256 + count % 256 = count
    omega
  refine ⟨?_, ?_, ?_⟩
  · simp only [Tracker.handleQuery, h32r, h16r]
    rw [if_neg (by
      rw [show (Tracker.MSG_QUERY :: (be4 cursor ++ be2 count)).length = 7 from rfl]
      omega)]
  · rw [Tracker.queryAll_complete _ c hc1 _ 0 (by omega) (by omega), List.drop_zero]
  · rw [Tracker.queryAll_complete _ c hc1 _ 0 (by omega) (by omega), List.drop_zero]

/-- Witness for C2: a tracker with two live public rooms, one private room
and one federated room, paged with c = 2 and a count of 101 (clamped). -/
theorem C2_query_pagination_witness :
    Tracker.handleQuery (Tracker.MSG_QUERY :: (be4 0 ++ be2 101)) 0
      { rooms :=
          [("a", { metadata := [1], entryRelay := "r1", isPrivate := false,
                   createdAt := 0, expiresAt := 5 }),
           ("b", { metadata := [2], entryRelay := "r2", isPrivate := true,
                   createdAt := 0, expiresAt := 5 }),
           ("c", { metadata := [3], entryRelay := "r3", isPrivate := false,
                   createdAt := 0, expiresAt := 5 })],
        circuitSessions := [],
        federatedRooms :=
          [("d", { metadata := [4], entryRelay := "r4", sourceRelay := "s",
                   expiresAt := 5 })] } =
      some (Tracker.queryPage (Tracker.publicRoomsQuery
        { rooms :=
            [("a", { metadata := [1], entryRelay := "r1", isPrivate := false,
                     createdAt := 0, expiresAt := 5 }),
             ("b", { metadata := [2], entryRelay := "r2", isPrivate := true,
                     createdAt := 0, expiresAt := 5 }),
             ("c", { metadata := [3], entryRelay := "r3", isPrivate := false,
                     createdAt := 0, expiresAt := 5 })],
          circuitSessions := [],
          federatedRooms :=
            [("d", { metadata := [4], entryRelay := "r4", sourceRelay := "s",
                     expiresAt := 5 })] } 0) 0 (if 101 > 100 then 100 else 101)) ∧
    Tracker.queryAll (Tracker.publicRoomsQuery
      { rooms :=
          [("a", { metadata := [1], entryRelay := "r1", isPrivate := false,
                   createdAt := 0, expiresAt := 5 }),
           ("b", { metadata := [2], entryRelay := "r2", isPrivate := true,
                   createdAt := 0, expiresAt := 5 }),
           ("c", { metadata := [3], entryRelay := "r3", isPrivate := false,
                   createdAt := 0, expiresAt := 5 })],
        circuitSessions := [],
        federatedRooms :=
          [("d", { metadata := [4], entryRelay := "r4", sourceRelay := "s",
                   expiresAt := 5 })] } 0) 2
      ((Tracker.publicRoomsQuery
        { rooms :=
            [("a", { metadata := [1], entryRelay := "r1", isPrivate := false,
                     createdAt := 0, expiresAt := 5 }),
             ("b", { metadata := [2], entryRelay := "r2", isPrivate := true,
                     createdAt := 0, expiresAt := 5 }),
             ("c", { metadata := [3], entryRelay := "r3", isPrivate := false,
                     createdAt := 0, expiresAt := 5 })],
          circuitSessions := [],
          federatedRooms :=
            [("d", { metadata := [4], entryRelay := "r4", sourceRelay := "s",
                     expiresAt := 5 })] } 0).length + 1) 0 =
      Tracker.publicRoomsQuery
      { rooms :=
          [("a", { metadata := [1], entryRelay := "r1", isPrivate := false,
                   createdAt := 0, expiresAt := 5 }),
           ("b", { metadata := [2], entryRelay := "r2", isPrivate := true,
                   createdAt := 0, expiresAt := 5 }),
           ("c", { metadata := [3], entryRelay := "r3", isPrivate := false,
                   createdAt := 0, expiresAt := 5 })],
        circuitSessions := [],
        federatedRooms :=
          [("d", { metadata := [4], entryRelay := "r4", sourceRelay := "s",
                   expiresAt := 5 })] } 0 ∧
    Tracker.queryAll (Tracker.publicRoomsQuery
      { rooms :=
          [("a", { metadata := [1], entryRelay := "r1", isPrivate := false,
                   createdAt := 0, expiresAt := 5 }),
           ("b", { metadata := [2], entryRelay := "r2", isPrivate := true,
                   createdAt := 0, expiresAt := 5 }),
           ("c", { metadata := [3], entryRelay := "r3", isPrivate := false,
                   createdAt := 0, expiresAt := 5 })],
        circuitSessions := [],
        federatedRooms :=
          [("d", { metadata := [4], entryRelay := "r4", sourceRelay := "s",
                   expiresAt := 5 })] } 0) 2
      ((Tracker.publicRoomsQuery
        { rooms :=
            [("a", { metadata := [1], entryRelay := "r1", isPrivate := false,
                     createdAt := 0, expiresAt := 5 }),
             ("b", { metadata := [2], entryRelay := "r2", isPrivate := true,
                     createdAt := 0, expiresAt := 5 }),
             ("c", { metadata := [3], entryRelay := "r3", isPrivate := false,
                     createdAt := 0, expiresAt := 5 })],
          circuitSessions := [],
          federatedRooms :=
            [("d", { metadata := [4], entryRelay := "r4", sourceRelay := "s",
                     expiresAt := 5 })] } 0).length + 1 + 1) 0 =
      Tracker.publicRoomsQuery
      { rooms :=
          [("a", { metadata := [1], entryRelay := "r1", isPrivate := false,
                   createdAt := 0, expiresAt := 5 }),
           ("b", { metadata := [2], entryRelay := "r2", isPrivate := true,
                   createdAt := 0, expiresAt := 5 }),
           ("c", { metadata := [3], entryRelay := "r3", isPrivate := false,
                   createdAt := 0, expiresAt := 5 })],
        circuitSessions := [],
        federatedRooms :=
          [("d", { metadata := [4], entryRelay := "r4", sourceRelay := "s",
                   expiresAt := 5 })] } 0 :=
  C2_query_pagination _ 0 2 0 101 1 (by decide) (by decide) (by decide) (by decide)

namespace Tracker

theorem foldl_fedStep_mapGet (b64 : String → List Nat) (roomTtlMs : Nat)
    (S : String) (st : TrackerState) (now : Int) (r : String) :
    ∀ (L : List PeerRoom) (acc : List (String × FedRoom)),
    mapGet r (L.foldl (fedStep b64 roomTtlMs S st now) acc) =
      (match lastMatch st r L with
       | some pr =>
         some { metadata := b64 pr.metadata, entryRelay := pr.entryRelay,
                sourceRelay := S, expiresAt := now + (3 * roomTtlMs / 2 : Nat) }
       | none => mapGet r acc) := by
  intro L
  induction L with
  | nil =>
    intro acc
    simp [lastMatch]
  | cons pr rest ih =>
    intro acc
    rw [List.foldl_cons, ih]
    cases hlm : lastMatch st r rest with
    | some q => simp [lastMatch, hlm]
    | none =>
      simp only [lastMatch, hlm]
      by_cases hempty : pr.roomId = "" ∨ pr.metadata = "" ∨ pr.entryRelay = ""
      · have hval : ¬ (validPeerRoom st pr = true ∧ pr.roomId = r) := by
          simp [validPeerRoom, hempty]
        rw [if_neg hval]
        simp [fedStep, hempty]
      · by_cases hlocal : (mapGet pr.roomId st.rooms).isSome = true
        · have hval : ¬ (validPeerRoom st pr = true ∧ pr.roomId = r) := by
            simp [validPeerRoom, hlocal]
          rw [if_neg hval]
          simp [fedStep, hempty, hlocal]
        · by_cases hid : pr.roomId = r
          · have hval : validPeerRoom st pr = true ∧ pr.roomId = r := by
              refine ⟨?_, hid⟩
              simp [validPeerRoom, hempty, hlocal]
            rw [if_pos hval]
            simp only [fedStep, if_neg hempty]
            rw [if_neg (by simp [hlocal]), ← hid, mapGet_mapSet_self]
          · have hval : ¬ (validPeerRoom st pr = true ∧ pr.roomId = r) := by
              simp [hid]
            rw [if_neg hval]
            simp only [fedStep, if_neg hempty]
            rw [if_neg (by simp [hlocal]), mapGet_mapSet_ne r pr.roomId _ _ hid]

end Tracker

/-- Counterexample for C6 as stated: the peer room list contains the entry
of room id "aa" with empty metadata; "aa" is not a local room, so the
claim demands that setFederatedRooms insert it, yet the entry is absent
afterwards (the code skips entries whose roomId, metadata or entryRelay is
falsy). -/
theorem C6_set_federated_rooms_counterexample :
    mapGet "aa" (Tracker.setFederatedRooms (fun _ => []) 120000 "s"
      [{ roomId := "aa", metadata := "", entryRelay := "x" }] 0
      { rooms := [], circuitSessions := [], federatedRooms := [] }).federatedRooms = none ∧
    mapGet "aa" ({ rooms := [], circuitSessions := [], federatedRooms := [] } :
      Tracker.TrackerState).rooms = none := by
  decide

/-- C6 amended: setFederatedRooms(S, L) leaves the local rooms unchanged,
a call with the empty list removes exactly the federated entries sourced
from S (entries from other sources keep their place and contents), and in
general the resulting federated Map holds, at each room id, the last entry
of L with that id that has nonempty roomId, metadata and entryRelay and is
not a local room (with source S and expiry now plus 1.5 times the room
TTL), and otherwise whatever survives the removal of the S-sourced
entries. -/
theorem C6_set_federated_rooms_amended
    (b64 : String → List Nat) (roomTtlMs : Nat) (S : String)
    (L : List Tracker.PeerRoom) (now : Int) (st : Tracker.TrackerState) (r : String) :
    (Tracker.setFederatedRooms b64 roomTtlMs S L now st).rooms = st.rooms ∧
    (Tracker.setFederatedRooms b64 roomTtlMs S [] now st).federatedRooms =
      st.federatedRooms.filter (fun p => decide (p.2.sourceRelay ≠ S)) ∧
    mapGet r (Tracker.setFederatedRooms b64 roomTtlMs S L now st).federatedRooms =
      (match Tracker.lastMatch st r L with
       | some pr =>
         some { metadata := b64 pr.metadata, entryRelay := pr.entryRelay,
                sourceRelay := S, expiresAt := now + (3 * roomTtlMs / 2 : Nat) }
       | none =>
         mapGet r (st.federatedRooms.filter (fun p => decide (p.2.sourceRelay ≠ S)))) := by
  refine ⟨rfl, rfl, ?_⟩
  simp only [Tracker.setFederatedRooms]
  exact Tracker.foldl_fedStep_mapGet b64 roomTtlMs S st now r L _

/-- C5: an announcement passes verification iff all checks hold: required
fields present, ws or wss URL of at most 256 characters, both keys 64 hex
characters, timestamp within [now - 10 min, now + 1 min], hostname not
loopback/private/link-local (an unparsable URL counts as internal), and a
valid detached signature over url|pk|ts; in particular an announcement
with an 11-minute-old timestamp is rejected, and one whose URL host is
127.0.0.1 is rejected. -/
theorem C5_verify_announcement :
    (∀ (verifyF : String → String → String → Bool) (host : Option String)
       (a : Gossip.Announcement) (now : Int),
      Gossip.verifyAnnouncement verifyF host a now = true ↔
        (a.url ≠ "" ∧ a.pk ≠ "" ∧ a.signPk ≠ "" ∧ a.ts ≠ 0 ∧ a.sig ≠ "" ∧
         (a.url.startsWith "wss://" = true ∨ a.url.startsWith "ws://" = true) ∧
         a.url.length ≤ 256 ∧
         Gossip.isHex64 a.pk = true ∧ Gossip.isHex64 a.signPk = true ∧
         now - 600000 ≤ a.ts ∧ a.ts ≤ now + 60000 ∧
         Gossip.isInternalUrl host = false ∧
         verifyF a.sig (a.url ++ "|" ++ a.pk ++ "|" ++ toString a.ts) a.signPk = true)) ∧
    (∀ (verifyF : String → String → String → Bool) (host : Option String)
       (url pk signPk sig : String) (now : Int),
      Gossip.verifyAnnouncement verifyF host
        { url := url, pk := pk, signPk := signPk, ts := now - 660000, sig := sig } now =
        false) ∧
    (∀ (verifyF : String → String → String → Bool) (a : Gossip.Announcement) (now : Int),
      Gossip.verifyAnnouncement verifyF (some "127.0.0.1") a now = false) := by
  refine ⟨?_, ?_, ?_⟩
  · intro verifyF host a now
    simp only [Gossip.verifyAnnouncement, Gossip.ANNOUNCE_MAX_AGE_MS,
      Gossip.ANNOUNCE_MAX_FUTURE_MS]
    by_cases h1 : a.url = "" ∨ a.pk = "" ∨ a.signPk = "" ∨ a.ts = 0 ∨ a.sig = ""
    · rw [if_pos h1]
      simp only [Bool.false_eq_true, false_iff]
      intro hcon
      rcases h1 with h | h | h | h | h
      · exact hcon.1 h
      · exact hcon.2.1 h
      · exact hcon.2.2.1 h
      · exact hcon.2.2.2.1 h
      · exact hcon.2.2.2.2.1 h
    · rw [if_neg h1]
      by_cases h2 : ¬ (a.url.startsWith "wss://" ∨ a.url.startsWith "ws://")
      · rw [if_pos h2]
        simp only [Bool.false_eq_true, false_iff]
        intro hcon
        exact h2 hcon.2.2.2.2.2.1
      · rw [if_neg h2]
        by_cases h3 : a.url.length > 256
        · rw [if_pos h3]
          simp only [Bool.false_eq_true, false_iff]
          intro hcon
          have := hcon.2.2.2.2.2.2.1
          omega
        · rw [if_neg h3]
          by_cases h4 : ¬ Gossip.isHex64 a.pk
          · rw [if_pos h4]
            simp only [Bool.false_eq_true, false_iff]
            intro hcon
            exact h4 hcon.2.2.2.2.2.2.2.1
          · rw [if_neg h4]
            by_cases h5 : ¬ Gossip.isHex64 a.signPk
            · rw [if_pos h5]
              simp only [Bool.false_eq_true, false_iff]
              intro hcon
              exact h5 hcon.2.2.2.2.2.2.2.2.1
            · rw [if_neg h5]
              by_cases h6 : a.ts < now - 600000
              · rw [if_pos h6]
                simp only [Bool.false_eq_true, false_iff]
                intro hcon
                have := hcon.2.2.2.2.2.2.2.2.2.1
                omega
              · rw [if_neg h6]
                by_cases h7 : a.ts > now + 60000
                · rw [if_pos h7]
                  simp only [Bool.false_eq_true, false_iff]
                  intro hcon
                  have := hcon.2.2.2.2.2.2.2.2.2.2.1
                  omega
                · rw [if_neg h7]
                  by_cases h8 : Gossip.isInternalUrl host = true
                  · rw [if_pos h8]
                    simp only [Bool.false_eq_true, false_iff]
                    intro hcon
                    have := hcon.2.2.2.2.2.2.2.2.2.2.2.1
                    rw [this] at h8
                    exact absurd h8 (by simp)
                  · rw [if_neg h8]
                    constructor
                    · intro hv
                      push_neg at h1 h2 h4 h5
                      rw [Bool.not_eq_true] at h8
                      exact ⟨h1.1, h1.2.1, h1.2.2.1, h1.2.2.2.1, h1.2.2.2.2, h2,
                        by omega, h4, h5, by omega, by omega, h8, hv⟩
                    · intro hcon
                      exact hcon.2.2.2.2.2.2.2.2.2.2.2.2
  · intro verifyF host url pk signPk sig now
    simp only [Gossip.verifyAnnouncement, Gossip.ANNOUNCE_MAX_AGE_MS,
      Gossip.ANNOUNCE_MAX_FUTURE_MS]
    by_cases h1 : url = "" ∨ pk = "" ∨ signPk = "" ∨ now - 660000 = 0 ∨ sig = ""
    · rw [if_pos h1]
    · rw [if_neg h1]
      by_cases h2 : ¬ (url.startsWith "wss://" ∨ url.startsWith "ws://")
      · rw [if_pos h2]
      · rw [if_neg h2]
        by_cases h3 : url.length > 256
        · rw [if_pos h3]
        · rw [if_neg h3]
          by_cases h4 : ¬ Gossip.isHex64 pk
          · rw [if_pos h4]
          · rw [if_neg h4]
            by_cases h5 : ¬ Gossip.isHex64 signPk
            · rw [if_pos h5]
            · rw [if_neg h5]
              rw [if_pos (show now - 660000 < now - 600000 from by omega)]
  · intro verifyF a now
    simp only [Gossip.verifyAnnouncement, Gossip.ANNOUNCE_MAX_AGE_MS,
      Gossip.ANNOUNCE_MAX_FUTURE_MS]
    by_cases h1 : a.url = "" ∨ a.pk = "" ∨ a.signPk = "" ∨ a.ts = 0 ∨ a.sig = ""
    · rw [if_pos h1]
    · rw [if_neg h1]
      by_cases h2 : ¬ (a.url.startsWith "wss://" ∨ a.url.startsWith "ws://")
      · rw [if_pos h2]
      · rw [if_neg h2]
        by_cases h3 : a.url.length > 256
        · rw [if_pos h3]
        · rw [if_neg h3]
          by_cases h4 : ¬ Gossip.isHex64 a.pk
          · rw [if_pos h4]
          · rw [if_neg h4]
            by_cases h5 : ¬ Gossip.isHex64 a.signPk
            · rw [if_pos h5]
            · rw [if_neg h5]
              by_cases h6 : a.ts < now - 600000
              · rw [if_pos h6]
              · rw [if_neg h6]
                by_cases h7 : a.ts > now + 60000
                · rw [if_pos h7]
                · rw [if_neg h7]
                  rw [if_pos
                    (show Gossip.isInternalUrl (some "127.0.0.1") = true from by decide)]

/-- C8: a wire packet below the minimum size (nonce + circuit id + MAC +
one byte = 45) or whose first byte is the chaff tag 0xFF is dropped by the
dispatcher before any state is read or written: the relay state is
unchanged and no output is produced. -/
theorem C8_short_or_chaff_ignored
    (kx : List Nat → Option (List Nat × List Nat))
    (dec : List Nat → List Nat → List Nat → Option (List Nat))
    (utf8 : List Nat → String) (maxCircuits : Nat)
    (rawData : List Nat) (ws : Nat) (now : Int) (st : RelayState)
    (h : rawData.length < 45 ∨ rawData.getD 0 0 = 0xFF) :
    Relay.handlePacket kx dec utf8 maxCircuits rawData ws now st = (st, []) := by
  rcases h with h | h
  · simp only [Relay.handlePacket]
    rw [if_pos (by simp only [Relay.NONCE_BYTES, Relay.MAC_BYTES]; omega)]
  · by_cases h1 : rawData.length < Relay.NONCE_BYTES + 4 + Relay.MAC_BYTES + 1
    · simp only [Relay.handlePacket]
      rw [if_pos h1]
    · simp only [Relay.handlePacket]
      rw [if_neg h1, if_pos h]

/-- Witness for C8: a 64-byte chaff packet (all bytes 0xFF) against a
relay state holding one live circuit. -/
theorem C8_short_or_chaff_ignored_witness :
    Relay.handlePacket (fun _ => none) (fun _ _ _ => none) (fun _ => "") 10000
      (List.replicate 64 255) 3 9
      { circuits :=
          [(1, { circuitId := 1, rx := [1], tx := [2], inboundWs := 0, outboundWs := none,
                 lastActivity := 0, nextHop := none, rendezvousPairId := none })],
        pendingRendezvous := [] } =
      ({ circuits :=
           [(1, { circuitId := 1, rx := [1], tx := [2], inboundWs := 0, outboundWs := none,
                  lastActivity := 0, nextHop := none, rendezvousPairId := none })],
         pendingRendezvous := [] }, []) :=
  C8_short_or_chaff_ignored (fun _ => none) (fun _ _ _ => none) (fun _ => "") 10000
    (List.replicate 64 255) 3 9
    { circuits :=
        [(1, { circuitId := 1, rx := [1], tx := [2], inboundWs := 0, outboundWs := none,
               lastActivity := 0, nextHop := none, rendezvousPairId := none })],
      pendingRendezvous := [] }
    (Or.inr (by decide))
